import Mathlib

/-!
# lite: OpenAPI registration (`openapi.go`)

A shallow embedding of `registerOpenAPIOperation`, `register`, `setHeaderScheme`,
`setSecurityScheme`, `setParamSchema`, `tagFromType`, `dive` and `getStructTag`.

* Go types (`reflect.Type`) are finite trees, `GoType`; a struct carries its fields
  with their struct tags.
* Go maps are total lookup functions `String → Option α`.
* Mutation of `*App` and `*openapi3.Operation` is explicit state passing; a call
  yields the state it leaves behind together with the failure (returned `error`
  or `panic`) it ended with, if any.
* Schema references are pointers: `Components.Schemas` maps a name to the address of a
  schema object (or to nil), and the objects live on a heap, `App.Objects`. Writing to an
  object through one reference is seen through every other reference to it.
* The schema generator of the OpenAPI library is one package-level object
  (`var generator`, openapi.go 10): it keeps the schema object it made for a type and
  hands the same object out again for that type (`App.Types`). What it makes for a
  type it has not seen is a parameter `gen` of every definition that calls it: an
  error, a nil reference or the contents of a new schema object. It is taken not to
  write to the schema map it is handed, and properties nested in a schema are not
  modelled.
-/

namespace Lite

/-! ## Reflection -/

/-- The values of `reflect.Kind`. -/
inductive Kind where
  | Invalid | Bool | Int | Int8 | Int16 | Int32 | Int64
  | Uint | Uint8 | Uint16 | Uint32 | Uint64 | Uintptr
  | Float32 | Float64 | Complex64 | Complex128
  | Array | Chan | Func | Interface | Map | Ptr | Slice | String | Struct
  | UnsafePointer
  deriving DecidableEq, Repr

/-- Kinds of the types that have neither an element type nor fields nor a signature. -/
inductive BasicKind where
  | Bool | Int | Int8 | Int16 | Int32 | Int64
  | Uint | Uint8 | Uint16 | Uint32 | Uint64 | Uintptr
  | Float32 | Float64 | Complex64 | Complex128
  | Interface | String
  deriving DecidableEq, Repr

/-- The `reflect.Kind` of a basic kind. -/
def BasicKind.toKind : BasicKind → Kind
  | .Bool => .Bool | .Int => .Int | .Int8 => .Int8 | .Int16 => .Int16
  | .Int32 => .Int32 | .Int64 => .Int64
  | .Uint => .Uint | .Uint8 => .Uint8 | .Uint16 => .Uint16 | .Uint32 => .Uint32
  | .Uint64 => .Uint64 | .Uintptr => .Uintptr
  | .Float32 => .Float32 | .Float64 => .Float64
  | .Complex64 => .Complex64 | .Complex128 => .Complex128
  | .Interface => .Interface | .String => .String

/-- A struct tag (`reflect.StructTag`), as its list of `key:"value"` pairs. -/
abbrev StructTag := List (String × String)

/-- Models `reflect.StructTag.Get`: the value of the first pair under `key`, `""` when there is none. -/
def StructTag.Get (tag : StructTag) (key : String) : String :=
  match tag.find? (fun kv => kv.1 == key) with
  | some kv => kv.2
  | none => ""

mutual
/-- A Go type as `reflect.Type` presents it. Every type carries its `Name()`, which is
`""` for an unnamed type such as `*T` or `[]T`. Signatures of function types are left out. -/
inductive GoType where
  | basic (name : String) (kind : BasicKind)
  | struct (name : String) (fields : Fields)
  | ptr (name : String) (elem : GoType)
  | slice (name : String) (elem : GoType)
  | array (name : String) (len : Nat) (elem : GoType)
  | map (name : String) (key : GoType) (elem : GoType)
  | chan (name : String) (elem : GoType)
  | func (name : String)
  | unsafePointer (name : String)
  deriving DecidableEq
/-- The fields of a struct type in declaration order (`reflect.StructField`: name, tag, type). -/
inductive Fields where
  | nil
  | cons (name : String) (tag : StructTag) (type : GoType) (rest : Fields)
  deriving DecidableEq
end

/-- Models `reflect.Type.Kind`. -/
def GoType.Kind : GoType → Kind
  | .basic _ k => k.toKind
  | .struct _ _ => .Struct
  | .ptr _ _ => .Ptr
  | .slice _ _ => .Slice
  | .array _ _ _ => .Array
  | .map _ _ _ => .Map
  | .chan _ _ => .Chan
  | .func _ => .Func
  | .unsafePointer _ => .UnsafePointer

/-- Models `reflect.Type.Name`. -/
def GoType.Name : GoType → String
  | .basic n _ => n
  | .struct n _ => n
  | .ptr n _ => n
  | .slice n _ => n
  | .array n _ _ => n
  | .map n _ _ => n
  | .chan n _ => n
  | .func n => n
  | .unsafePointer n => n

/-- Concatenation of field lists. -/
def Fields.append : Fields → Fields → Fields
  | .nil, gs => gs
  | .cons n tag t rest, gs => .cons n tag t (Fields.append rest gs)

/-- A failure of a call: a returned `error` or a `panic`, with its message. -/
inductive Failure where
  | error (msg : String)
  | panic (msg : String)
  deriving DecidableEq, Repr

/-- A `reflect.Value`: the zero `Value`, the zero value of a type, or a non-nil pointer
of a pointer type to a target. Registration only ever builds zero values
(`var reqBody RequestBody`, openapi.go line 22). -/
inductive Value where
  | invalid
  | zero (t : GoType)
  | pointer (t : GoType) (target : Value)

/-- Models `reflect.Value.Kind`: `Invalid` for the zero `Value`, else the kind of the type. -/
def Value.Kind : Value → Kind
  | .invalid => .Invalid
  | .zero t => t.Kind
  | .pointer t _ => t.Kind

/-- Models `reflect.Value.Elem` on a value of pointer kind: the zero `Value` for a nil pointer,
the target otherwise. (It is only called under `case reflect.Ptr`.) -/
def Value.Elem : Value → Value
  | .pointer _ target => target
  | _ => .invalid

/-- The dynamic type of the zero value of `t` boxed in an `any`: none (a nil interface)
when `t` is an interface type. This is `*new(T)` and `reflect.New(t).Elem().Interface()`. -/
def zeroInterface (t : GoType) : Option GoType :=
  if t.Kind = .Interface then none else some t

/-! ## Name resolution -/

/-- The function `dive` (openapi.go 321-331). `t.Elem()` is inlined: it yields the element type of
a pointer, slice, array, map or channel type and panics on every other kind. -/
def dive : GoType → Int → Except Failure String
  | .ptr _ e, maxDepth | .slice _ e, maxDepth | .array _ _ e, maxDepth
  | .map _ _ e, maxDepth | .chan _ e, maxDepth =>
    if maxDepth = 0 then .ok "default" else dive e (maxDepth - 1)
  | .func _, maxDepth | .unsafePointer _, maxDepth =>
    if maxDepth = 0 then .ok "default"
    else .error (.panic "reflect: Elem of invalid type")
  | t, _ => .ok t.Name

/-- The function `tagFromType` (openapi.go 313-319); `v` is the dynamic type of the interface
value, none for a nil interface. -/
def tagFromType (v : Option GoType) : Except Failure String :=
  match v with
  | none => .ok "unknown-interface"
  | some t => dive t 4

/-- The function `getStructTag` (openapi.go 334-355). -/
def getStructTag (contentType : String) : String :=
  if contentType = "application/json" then "json"
  else if contentType = "application/xml" then "xml"
  else if contentType = "application/x-www-form-urlencoded"
      ∨ contentType = "multipart/form-data" then "form"
  else if contentType = "text/plain" then "text"
  else if contentType = "application/octet-stream" then "binary"
  else if contentType = "application/pdf" then "pdf"
  else if contentType = "image/png" then "png"
  else if contentType = "image/jpeg" then "jpeg"
  else "json"

/-! ## The document -/

/-- A Go map with string keys, as its lookup function. -/
abbrev GoMap (α : Type) := String → Option α

/-- The empty map. -/
def GoMap.empty {α : Type} : GoMap α := fun _ => none

/-- The assignment `m[k] = v`. -/
def GoMap.insert {α : Type} (m : GoMap α) (k : String) (v : α) : GoMap α :=
  fun x => if x = k then some v else m x

/-- The removal of key `k`. -/
def GoMap.delete {α : Type} (m : GoMap α) (k : String) : GoMap α :=
  fun x => if x = k then none else m x

/-- The fields of `openapi3.Schema` that registration reads or writes. -/
structure Schema where
  Type_ : String
  Format : String
  Required : List String
  deriving DecidableEq, Repr

/-- The empty schema `&openapi3.Schema{}`. -/
def Schema.empty : Schema := { Type_ := "", Format := "", Required := [] }

/-- Models `openapi3.SchemaRef`. -/
structure SchemaRef where
  Ref : String
  Value : Schema
  deriving DecidableEq, Repr

/-- Models `openapi3.NewSchemaRef`. -/
def NewSchemaRef (ref : String) (value : Schema) : SchemaRef := { Ref := ref, Value := value }

/-- Models `openapi3.Parameter`. -/
structure Parameter where
  Name : String
  In : String
  Required : Bool
  Schema : Option SchemaRef
  deriving DecidableEq, Repr

/-- Models `openapi3.ParameterRef`. -/
structure ParameterRef where
  Ref : String
  Value : Option Parameter
  deriving DecidableEq, Repr

/-- Models `openapi3.NewPathParameter`: a path parameter is created required. -/
def NewPathParameter (name : String) : Parameter :=
  { Name := name, In := "path", Required := true, Schema := none }

/-- Models `openapi3.NewQueryParameter`. -/
def NewQueryParameter (name : String) : Parameter :=
  { Name := name, In := "query", Required := false, Schema := none }

/-- Models `openapi3.NewHeaderParameter`. -/
def NewHeaderParameter (name : String) : Parameter :=
  { Name := name, In := "header", Required := false, Schema := none }

/-- Models `openapi3.NewCookieParameter`. -/
def NewCookieParameter (name : String) : Parameter :=
  { Name := name, In := "cookie", Required := false, Schema := none }

/-- Models `openapi3.SecurityScheme`. -/
structure SecurityScheme where
  Type_ : String
  Scheme : String
  deriving DecidableEq, Repr

/-- Models `openapi3.SecurityRequirement`: scheme name to scopes. -/
abbrev SecurityRequirement := GoMap (List String)

/-- Models `openapi3.Content`: content type to the schema reference of its media type. -/
abbrev Content := GoMap SchemaRef

/-- Models `openapi3.NewContentWithSchemaRef`: one media type with `schema` per consumed type. -/
def NewContentWithSchemaRef (schema : SchemaRef) (consumes : List String) : Content :=
  consumes.foldl (fun content mediaType => GoMap.insert content mediaType schema) GoMap.empty

/-- Models `openapi3.Response`. -/
structure Response where
  Description : Option String
  Content : Content

/-- Models `openapi3.RequestBody`. -/
structure RequestBody where
  Content : Content

/-- The key of a response of an operation: `"default"`, or a status code in decimal
(`strconv.FormatInt(status, 10)`, kept as the number it writes). -/
inductive ResponseCode where
  | default
  | status (code : Int)
  deriving DecidableEq, Repr

/-- Models `openapi3.Responses`: response code to response. -/
abbrev Responses := ResponseCode → Option Response

/-- Models `openapi3.Responses.Set`. -/
def Responses.Set (responses : Responses) (code : ResponseCode) (response : Response) :
    Responses :=
  fun c => if c = code then some response else responses c

/-- Models `openapi3.Responses.Delete`. -/
def Responses.Delete (responses : Responses) (code : ResponseCode) : Responses :=
  fun c => if c = code then none else responses c

/-- Models `openapi3.Operation`; `Responses` and `Security` are nil in `&openapi3.Operation{}`. -/
structure Operation where
  OperationID : String
  Parameters : List ParameterRef
  RequestBody : Option RequestBody
  Responses : Option Responses
  Security : Option (List SecurityRequirement)

/-- The value `&openapi3.Operation{}`. -/
def Operation.empty : Operation :=
  { OperationID := "", Parameters := [], RequestBody := none, Responses := none, Security := none }

/-- The address of a schema object (`*openapi3.SchemaRef`) on the heap. -/
abbrev Addr := Nat

/-- The state registration works on. `Schemas`, `Parameters`, `Headers` and `SecuritySchemes`
are the maps of `s.OpenApiSpec.Components` and `Paths` is `s.OpenApiSpec.Paths` (document
path, then method); a schema entry is the address of a schema object, or nil. `Objects` is
the heap of schema objects, an address being a position in it, and `Types` is the memory of
the package-level generator: the address of the object it made for the dynamic type of an
argument. Both belong to the process, not to one application: a new application in a process
that has registered routes before has empty maps but not empty `Objects` and `Types`. -/
structure App where
  Schemas : GoMap (Option Addr)
  Parameters : GoMap ParameterRef
  Headers : GoMap Parameter
  SecuritySchemes : GoMap SecurityScheme
  Paths : GoMap (GoMap Operation)
  Objects : List SchemaRef
  Types : Option GoType → Option Addr

/-- An application whose document is empty, in a process whose generator is unused. -/
def App.empty : App :=
  { Schemas := GoMap.empty, Parameters := GoMap.empty, Headers := GoMap.empty,
    SecuritySchemes := GoMap.empty, Paths := GoMap.empty, Objects := [],
    Types := fun _ => none }

/-- What the schema generator makes for the dynamic type of an argument it has not seen
before: an error, a nil reference, or the contents of a new schema object. The argument is
none for a nil interface value, on which the library does not return; that too is a failure
of the generator here. -/
abbrev Generator := Option GoType → Except String (Option SchemaRef)

/-- The call `generator.NewSchemaRefForValue(value, schemas)` on a value of dynamic type `v`:
the object the generator already made for `v` is handed out again; otherwise what `gen`
yields is placed in a new object on the heap and remembered for `v`. -/
def NewSchemaRefForValue (gen : Generator) (s : App) (v : Option GoType) :
    App × Except String (Option Addr) :=
  match s.Types v with
  | some a => (s, .ok (some a))
  | none =>
    match gen v with
    | .error e => (s, .error e)
    | .ok none => (s, .ok none)
    | .ok (some ref) =>
      ({ s with
          Objects := s.Objects ++ [ref],
          Types := fun x => if x = v then some s.Objects.length else s.Types x },
        .ok (some s.Objects.length))

/-- What a call on `(s, operation)` leaves behind: both as mutated so far, and the
failure the call ended with (none when it returned a nil error). -/
structure Outcome where
  app : App
  operation : Operation
  failure : Option Failure

/-! ## Repository code outside `openapi.go` -/

/-- The pieces of `cs` between the occurrences of `sep`. -/
def splitChars (sep : Char) : List Char → List (List Char)
  | [] => [[]]
  | c :: cs =>
    if c = sep then [] :: splitChars sep cs
    else
      match splitChars sep cs with
      | [] => [[c]]
      | piece :: pieces => (c :: piece) :: pieces

/-- The key and value of one tag part: the text before the first `=` and the text after it. -/
def tagPart (piece : List Char) : String × String :=
  (String.mk (piece.takeWhile (fun c => c ≠ '=')),
   String.mk ((piece.dropWhile (fun c => c ≠ '=')).drop 1))

/-- Modelled from the spec: `parseTag` is not in `openapi.go`. The tag grammar of §4.1 and §6 is
`location=key` followed by `;modifier` or `;modifier=value` items; the result maps the
location to the key and each modifier to its value (`""` for a bare modifier). -/
def parseTag (tag : String) : GoMap String :=
  (splitChars ';' tag.data).foldl
    (fun m piece => GoMap.insert m (tagPart piece).1 (tagPart piece).2) GoMap.empty

/-- One path segment of the document path: `:name` becomes the name in braces. -/
def routeSegment (segment : List Char) : List Char :=
  match segment with
  | ':' :: name => Char.ofNat 123 :: (name ++ [Char.ofNat 125])
  | _ => segment

/-- Modelled from the spec: `parseRoutePath` is not in `openapi.go`. The document keys paths by
the template with each `:name` segment written in braces (§6, and the expected document
of `TestContextWithRequest_FullBody`). -/
def parseRoutePath (path : String) : String :=
  String.mk (List.intercalate ['/'] ((splitChars '/' path.data).map routeSegment))

/-- The type behind the generic error schema: `id`, `message` and `status` (§5, §7). -/
def httpGenericErrorType : GoType :=
  .struct "httpGenericError"
    (.cons "ID" [("json", "id")] (.basic "string" .String)
      (.cons "Message" [("json", "message")] (.basic "string" .String)
        (.cons "Status" [("json", "status")] (.basic "int" .Int) .nil)))

/-- The fixed error catalogue: status code and description. -/
def errorCatalogue : List (Int × String) :=
  [(400, "Bad Request"), (401, "Unauthorized"), (404, "Not Found"), (409, "Conflict"),
   (500, "Internal Server Error")]

/-- Modelled from the spec: `createDefaultErrorResponses` is not in `openapi.go`. It yields one
response per status code of the fixed catalogue (400, 401, 404, 409, 500), each with content
for the accepted content types that references the one generic error schema
`httpGenericError`. A schema entry being "memoized exactly once per name for the lifetime of
the document" and "once created, never overwritten" (§3), the schema is generated and stored
when the name is still absent. -/
def createDefaultErrorResponses (gen : Generator) (s : App) :
    App × Except String (List (Int × Response)) :=
  let content := NewContentWithSchemaRef
    (NewSchemaRef "#/components/schemas/httpGenericError" Schema.empty)
    ["application/json", "application/xml", "multipart/form-data"]
  let responses := errorCatalogue.map
    (fun e => (e.1, ({ Description := some e.2, Content := content } : Response)))
  match s.Schemas "httpGenericError" with
  | some _ => (s, .ok responses)
  | none =>
    match NewSchemaRefForValue gen s (some (.ptr "" httpGenericErrorType)) with
    | (s, .error e) => (s, .error e)
    | (s, .ok schema) =>
      ({ s with Schemas := GoMap.insert s.Schemas "httpGenericError" schema }, .ok responses)

/-! ## Registration (`openapi.go`) -/

/-- The function `setHeaderScheme` (openapi.go 231-252). -/
def setHeaderScheme (gen : Generator) (s : App) (operation : Operation) (tag : String)
    (parameter : Parameter) : Outcome :=
  let finish (s : App) : Outcome :=
    { app := { s with Headers := GoMap.insert s.Headers tag parameter },
      operation := { operation with
        Parameters := operation.Parameters ++
          [{ Ref := "#/components/parameters/" ++ tag, Value := none }] },
      failure := none }
  match s.Schemas tag with
  | some _ => finish s
  | none =>
    match NewSchemaRefForValue gen s (some (.ptr "" (.basic "string" .String))) with
    | (s, .error e) => { app := s, operation := operation, failure := some (.error e) }
    | (s, .ok paramSchema) =>
      finish { s with Schemas := GoMap.insert s.Schemas tag paramSchema }

/-- The function `setSecurityScheme` (openapi.go 254-276). `Security.With` appends the requirement. -/
def setSecurityScheme (s : App) (operation : Operation) (name tpe scheme : String) : Outcome :=
  let sec : SecurityRequirement := GoMap.insert GoMap.empty name []
  let securityScheme : SecurityScheme := { Type_ := tpe, Scheme := scheme }
  let security := match operation.Security with
    | none => []
    | some reqs => reqs
  { app := { s with SecuritySchemes := GoMap.insert s.SecuritySchemes name securityScheme },
    operation := { operation with Security := some (security ++ [sec]) },
    failure := none }

/-- The function `setParamSchema` (openapi.go 278-311). -/
def setParamSchema (gen : Generator) (s : App) (operation : Operation) (tag : String)
    (parameter : Parameter) (isRequired : Bool) (fieldType : GoType) : Outcome :=
  let ref := "#/components/schemas/" ++ tag
  let parameter := { parameter with
    Schema := some (NewSchemaRef ref Schema.empty), Required := isRequired }
  let finish (s : App) : Outcome :=
    { app := { s with
        Parameters := GoMap.insert s.Parameters tag { Ref := "", Value := some parameter } },
      operation := { operation with
        Parameters := operation.Parameters ++
          [{ Ref := "#/components/parameters/" ++ tag, Value := none }] },
      failure := none }
  match s.Schemas tag with
  | some _ => finish s
  | none =>
    match NewSchemaRefForValue gen s (zeroInterface fieldType) with
    | (s, .error e) => { app := s, operation := operation, failure := some (.error e) }
    | (s, .ok paramSchema) =>
      finish { s with Schemas := GoMap.insert s.Schemas tag paramSchema }

/-- The loop that collects the required names of a struct (openapi.go 50-56 and 195-201): the
value of the `structTag` tag of every direct field whose type is not of pointer kind. -/
def requiredNames (structTag : String) : Fields → List String
  | .nil => []
  | .cons _ tag type rest =>
    if type.Kind ≠ .Ptr then tag.Get structTag :: requiredNames structTag rest
    else requiredNames structTag rest

/-- The statement `schema.Value.Required = append(schema.Value.Required, name)` run for each of
`names`: it writes to the schema object at the address `schema`, in place, and the first run
panics on a nil reference. (An address outside the heap, which no call hands out, is left
alone.) -/
def appendRequired (s : App) (schema : Option Addr) (names : List String) :
    Except Failure App :=
  match schema, names with
  | _, [] => .ok s
  | none, _ :: _ => .error (.panic "invalid memory address or nil pointer dereference")
  | some a, _ :: _ =>
    match s.Objects[a]? with
    | none => .ok s
    | some ref =>
      .ok { s with
        Objects := s.Objects.set a
          { ref with Value := { ref.Value with Required := ref.Value.Required ++ names } } }

/-- The switch of `register` on the kind of the field value (openapi.go 105-116): whether it
reaches `panic("not implemented")`. -/
def unsupportedKind (fieldVal : Value) : Bool :=
  match fieldVal.Kind with
  | .Ptr =>
    match fieldVal.Elem.Kind with
    | .Struct | .Slice | .Map => true
    | _ => false
  | .Invalid | .Uintptr | .Chan | .Func | .UnsafePointer => true
  | _ => false

/-- The branch `reqKey == "body"` of `register` (openapi.go 185-221). `fieldType.NumField()` panics
unless the field type is a struct. -/
def registerBody (gen : Generator) (s : App) (operation : Operation) (fieldType : GoType) :
    Outcome :=
  let name := fieldType.Name
  let finish (s : App) : Outcome :=
    { app := s,
      operation := { operation with
        RequestBody := some
          { Content := NewContentWithSchemaRef
              (NewSchemaRef ("#/components/schemas/" ++ name) Schema.empty)
              ["application/json"] } },
      failure := none }
  match s.Schemas name with
  | some _ => finish s
  | none =>
    match NewSchemaRefForValue gen s (zeroInterface fieldType) with
    | (s, .error e) => { app := s, operation := operation, failure := some (.error e) }
    | (s, .ok bodySchema) =>
      match fieldType with
      | .struct _ fields =>
        match appendRequired s bodySchema
            (requiredNames (getStructTag "application/json") fields) with
        | .error f => { app := s, operation := operation, failure := some f }
        | .ok s => finish { s with Schemas := GoMap.insert s.Schemas name bodySchema }
      | _ =>
        { app := s, operation := operation,
          failure := some (.panic "reflect: NumField of non-struct type") }

/-- The body of the loop of `register` for a field that is not an untagged struct
(openapi.go 127-225); `tag` is the value of the field's `lite` tag. -/
def registerField (gen : Generator) (s : App) (operation : Operation) (fieldName : String)
    (tag : String) (fieldType : GoType) : Outcome :=
  let isRequired : Bool := decide (fieldType.Kind ≠ .Ptr)
  let tag := if tag = "" then fieldName else tag
  let tagMap := parseTag tag
  match tagMap "path" with
  | some pathKey =>
    setParamSchema gen s operation pathKey (NewPathParameter pathKey) isRequired fieldType
  | none =>
  match tagMap "query" with
  | some queryKey =>
    setParamSchema gen s operation queryKey (NewQueryParameter queryKey) isRequired fieldType
  | none =>
  match tagMap "header" with
  | some headerKey =>
    let parameter := { NewHeaderParameter headerKey with Required := isRequired }
    let isAuth : Bool := (tagMap "isauth").isSome
    let tpe := if isAuth then "http" else ""
    let name := if isAuth then "Authorization" else ""
    let scheme := if isAuth then "bearer" else ""
    let scheme := match tagMap "scheme" with
      | some valueScheme => valueScheme
      | none => scheme
    let name := match tagMap "name" with
      | some valueName => valueName
      | none => name
    if isAuth then setSecurityScheme s operation name tpe scheme
    else setHeaderScheme gen s operation tag parameter
  | none =>
  match tagMap "cookie" with
  | some cookieKey =>
    setParamSchema gen s operation cookieKey (NewCookieParameter cookieKey) isRequired fieldType
  | none =>
  match tagMap "req" with
  | some reqKey =>
    if reqKey = "body" then registerBody gen s operation fieldType
    else { app := s, operation := operation, failure := none }
  | none =>
    { app := s, operation := operation, failure := some (.error "unknown parameter type") }

/-- The function `register` (openapi.go 95-229), run on the zero value of a struct type with the
given fields: each field value is the zero value of the field's type. -/
def register (gen : Generator) : App → Operation → Fields → Outcome
  | s, operation, .nil => { app := s, operation := operation, failure := none }
  | s, operation, .cons fieldName fieldTag fieldType rest =>
    let tag := fieldTag.Get "lite"
    if unsupportedKind (.zero fieldType) then
      { app := s, operation := operation, failure := some (.panic "not implemented") }
    else
      match fieldType, decide (tag = "") with
      | .struct _ fields, true =>
        match register gen s operation fields with
        | { app := s1, operation := operation1, failure := none } =>
          register gen s1 operation1 rest
        | failed => failed
      | _, _ =>
        match registerField gen s operation fieldName tag fieldType with
        | { app := s1, operation := operation1, failure := none } =>
          register gen s1 operation1 rest
        | failed => failed

/-- Models `openapi3.NewResponses`: the responses a fresh operation gets, holding the placeholder under
`"default"`. -/
def NewResponses : Responses :=
  Responses.Set (fun _ => none) .default { Description := some "", Content := GoMap.empty }

/-- Models `openapi3.Operation.AddResponse`: the response is stored under the status code, or under
`"default"` when the status is not between 1 and 999. -/
def AddResponse (operation : Operation) (status : Int) (response : Response) : Operation :=
  let code := if 0 < status ∧ status < 1000 then ResponseCode.status status else .default
  let responses := match operation.Responses with
    | none => NewResponses
    | some responses => responses
  { operation with Responses := some (Responses.Set responses code response) }

/-- Models `openapi3.T.AddOperation`: the operation is stored under the path and the method. -/
def AddOperation (s : App) (path method : String) (operation : Operation) : App :=
  let item := match s.Paths path with
    | none => GoMap.empty
    | some item => item
  { s with Paths := GoMap.insert s.Paths path (GoMap.insert item method operation) }

/-- What `registerOpenAPIOperation` leaves behind: the application, the operation it returns
(none for a nil pointer) and the failure it ended with. -/
structure Registration where
  app : App
  operation : Option Operation
  failure : Option Failure

/-- Lines 62-92 of `registerOpenAPIOperation`: the success response, the error responses, the
removal of the placeholder and the insertion of the operation. -/
def addResponses (gen : Generator) (s : App) (operation : Operation)
    (method routePath resContentType : String) (statusCode : Int) (tag : String)
    (responseSchema : Option Addr) : Registration :=
  let response : Response := { Description := some "OK", Content := GoMap.empty }
  let response : Response :=
    match responseSchema with
    | some _ =>
      { response with
        Content := NewContentWithSchemaRef
          (NewSchemaRef ("#/components/schemas/" ++ tag) Schema.empty) [resContentType] }
    | none => response
  let operation := AddResponse operation statusCode response
  match createDefaultErrorResponses gen s with
  | (s, .error e) => { app := s, operation := none, failure := some (.error e) }
  | (s, .ok responses) =>
    let operation := responses.foldl (fun op r => AddResponse op r.1 r.2) operation
    let operation := { operation with
      Responses := operation.Responses.map (fun responses => Responses.Delete responses .default) }
    { app := AddOperation s routePath method operation, operation := some operation,
      failure := none }

/-- Lines 39-60 of `registerOpenAPIOperation`: the schema of the response type is looked up under
`tag` and generated and stored when absent. `reflect.TypeOf(*new(ResponseBody))` is nil for an
interface type, on which `Kind()` panics. Yields the application and the schema reference. -/
def responseSchemaFor (gen : Generator) (s : App) (resContentType tag : String)
    (ResponseBody : GoType) : App × Except Failure (Option Addr) :=
  match s.Schemas tag with
  | some responseSchema => (s, .ok responseSchema)
  | none =>
    match NewSchemaRefForValue gen s (some (.ptr "" ResponseBody)) with
    | (s, .error e) => (s, .error (.error e))
    | (s, .ok responseSchema) =>
      match zeroInterface ResponseBody with
      | none => (s, .error (.panic "invalid memory address or nil pointer dereference"))
      | some (.struct _ fields) =>
        match appendRequired s responseSchema
            (requiredNames (getStructTag resContentType) fields) with
        | .error f => (s, .error f)
        | .ok s =>
          ({ s with Schemas := GoMap.insert s.Schemas tag responseSchema }, .ok responseSchema)
      | some _ =>
        ({ s with Schemas := GoMap.insert s.Schemas tag responseSchema }, .ok responseSchema)

/-- The function `registerOpenAPIOperation` (openapi.go 14-93) for the type arguments
`ResponseBody` and `RequestBody`. -/
def registerOpenAPIOperation (gen : Generator) (ResponseBody RequestBody : GoType) (s : App)
    (method path resContentType : String) (statusCode : Int) : Registration :=
  let operation : Operation := { Operation.empty with OperationID := method ++ path }
  match RequestBody with
  | .struct _ fields =>
    match register gen s operation fields with
    | { app := s, operation := _, failure := some f } =>
      { app := s, operation := none, failure := some f }
    | { app := s, operation := operation, failure := none } =>
      let routePath := parseRoutePath path
      match tagFromType (zeroInterface ResponseBody) with
      | .error f => { app := s, operation := none, failure := some f }
      | .ok tag =>
        match responseSchemaFor gen s resContentType tag ResponseBody with
        | (s, .error (.error e)) =>
          { app := s, operation := some operation, failure := some (.error e) }
        | (s, .error f) => { app := s, operation := none, failure := some f }
        | (s, .ok responseSchema) =>
          addResponses gen s operation method routePath resContentType statusCode tag
            responseSchema
  | _ =>
    { app := s, operation := none, failure := some (.error "request body must be a struct") }

/-! ## Reference definitions -/

deriving instance DecidableEq for Except

/-- The number of leading wrapper levels of a type, a wrapper being a pointer, slice, array
or map type. -/
def wrapperLevels : GoType → Nat
  | .ptr _ e | .slice _ e | .array _ _ e | .map _ _ e => wrapperLevels e + 1
  | _ => 0

/-- The type left after all leading pointer, slice, array and map levels are removed. -/
def coreType : GoType → GoType
  | .ptr _ e | .slice _ e | .array _ _ e | .map _ _ e => coreType e
  | t => t

/-- The reference for `tagFromType`: `"unknown-interface"` for a nil interface; for a type of
`k` wrapper levels around a core type named `n`, `n` when `k ≤ 4` and `"default"` otherwise. -/
def tagReference (v : Option GoType) : String :=
  match v with
  | none => "unknown-interface"
  | some t => if wrapperLevels t ≤ 4 then (coreType t).Name else "default"

/-- Whether the core type of a type is of none of the kinds chan, func and unsafe pointer. -/
def plainCore (t : GoType) : Bool :=
  decide ((coreType t).Kind ≠ .Chan) && decide ((coreType t).Kind ≠ .Func)
    && decide ((coreType t).Kind ≠ .UnsafePointer)

/-- Whether the value is nil or of a type with a plain core. -/
def plainValue (v : Option GoType) : Bool :=
  match v with
  | none => true
  | some t => plainCore t

/-! ## Example inputs -/

/-- The type `int`. -/
def intType : GoType := .basic "int" .Int

/-- The type `string`. -/
def stringType : GoType := .basic "string" .String

/-- A named channel type, `type Signal chan int`. -/
def signalType : GoType := .chan "Signal" intType

/-- A struct type `Item` with the fields `ID uint64` and `Note *string`. -/
def itemType : GoType :=
  .struct "Item"
    (.cons "ID" [("json", "id"), ("xml", "Id")] (.basic "uint64" .Uint64)
      (.cons "Note" [("json", "note"), ("xml", "Note")] (.ptr "" stringType) .nil))

/-- A generator that yields an empty schema for every type. -/
def emptyGenerator : Generator := fun _ => .ok (some { Ref := "", Value := Schema.empty })

/-! ## Auxiliary definitions -/

/-- Whether a type is a struct type. -/
def GoType.isStruct : GoType → Bool
  | .struct _ _ => true
  | _ => false

/-- Sequencing of two registration steps: the second runs on what the first left, unless
the first failed. -/
def Outcome.andThen (o : Outcome) (next : App → Operation → Outcome) : Outcome :=
  match o with
  | { app := s, operation := operation, failure := none } => next s operation
  | failed => failed

/-- Every schema entry of `s` is still the entry of `s1` under the same name: the same address,
or nil as before. -/
def SchemasKept (s s1 : App) : Prop :=
  ∀ k e, s.Schemas k = some e → s1.Schemas k = some e

/-- The document of `s1` is that of `s`: the same maps, whatever the heap and the generator. -/
def SameDocument (s s1 : App) : Prop :=
  s1.Schemas = s.Schemas ∧ s1.Parameters = s.Parameters ∧ s1.Headers = s.Headers
    ∧ s1.SecuritySchemes = s.SecuritySchemes ∧ s1.Paths = s.Paths

/-- Every schema object of `s` is in `s1` at the same address with the same contents. -/
def ObjectsKept (s s1 : App) : Prop :=
  ∀ (a : Addr) (ref : SchemaRef), s.Objects[a]? = some ref → s1.Objects[a]? = some ref

/-- The schema object behind the entry `name` of `Components.Schemas`: none when there is no
entry, nil (`some none`) for a nil reference. -/
def App.schemaAt (s : App) (name : String) : Option (Option SchemaRef) :=
  match s.Schemas name with
  | none => none
  | some none => some none
  | some (some a) => some s.Objects[a]?

/-- The fields of a struct as a list of name, tag and type. -/
def Fields.toList : Fields → List (String × StructTag × GoType)
  | .nil => []
  | .cons n tag t rest => (n, tag, t) :: Fields.toList rest

/-- The direct fields whose type is not of pointer kind, in declaration order. -/
def nonPointerFields (fields : Fields) : List (String × StructTag × GoType) :=
  fields.toList.filter (fun f => decide (f.2.2.Kind ≠ .Ptr))

/-- The required list the claim describes for content type `C`: one entry per direct field
whose type is not of pointer kind, the value of its tag under `getStructTag C`. -/
def requiredReference (C : String) (fields : Fields) : List String :=
  (nonPointerFields fields).map (fun f => f.2.1.Get (getStructTag C))

/-- The schema reference `ref` with the required list of its schema set to `names`. -/
def SchemaRef.withRequired (ref : SchemaRef) (names : List String) : SchemaRef :=
  { ref with Value := { ref.Value with Required := names } }


/-- A struct type `Pair` with two fields that are not pointers and one that is. -/
def pairType : GoType :=
  .struct "Pair"
    (.cons "ID" [("json", "id"), ("xml", "Id")] (.basic "uint64" .Uint64)
      (.cons "Name" [("json", "name"), ("xml", "Name")] stringType
        (.cons "Note" [("json", "note"), ("xml", "Note")] (.ptr "" stringType) .nil)))

/-- The fields of the request shape `struct { ID uint64; tagged path=id }`. -/
def idRequestFields : Fields :=
  .cons "ID" [("lite", "path=id")] (.basic "uint64" .Uint64) .nil

/-- A schema reference that differs from every generated one of the examples. -/
def earlierSchema : SchemaRef := { Ref := "", Value := { Type_ := "earlier", Format := "", Required := [] } }

/-- An application whose document already holds a schema named `id`. -/
def seededApp : App :=
  { App.empty with
    Objects := [earlierSchema], Schemas := GoMap.insert GoMap.empty "id" (some 0) }

/-- The success response of line 62-73 for the content type and the schema name. -/
def successResponse (resContentType tag : String) (responseSchema : Option Addr) : Response :=
  match responseSchema with
  | some _ =>
    { Description := some "OK",
      Content := NewContentWithSchemaRef
        (NewSchemaRef ("#/components/schemas/" ++ tag) Schema.empty) [resContentType] }
  | none => { Description := some "OK", Content := GoMap.empty }

/-- The operation as `addResponses` completes it from the responses of the error catalogue. -/
def completedOperation (operation : Operation) (resContentType : String) (statusCode : Int)
    (tag : String) (responseSchema : Option Addr) (responses : List (Int × Response)) :
    Operation :=
  let operation := responses.foldl (fun op r => AddResponse op r.1 r.2)
    (AddResponse operation statusCode (successResponse resContentType tag responseSchema))
  { operation with
    Responses := operation.Responses.map (fun responses => Responses.Delete responses .default) }

/-- Whether a status code is a key of its own that the error catalogue does not use. -/
def plainStatus (statusCode : Int) : Bool :=
  decide (0 < statusCode) && decide (statusCode < 1000)
    && !(errorCatalogue.map Prod.fst).contains statusCode


/-- The schema reference of the response that a registration left on its operation under
status `statusCode` for content type `contentType`, when there is one. -/
def successSchemaRef (r : Registration) (statusCode : Int) (contentType : String) :
    Option SchemaRef :=
  match r.operation with
  | none => none
  | some operation =>
    match operation.Responses with
    | none => none
    | some responses =>
      match responses (.status statusCode) with
      | none => none
      | some response => response.Content contentType

/-- The tag `register` parses for a field (openapi.go 102, 129-133): the `lite` tag, or the
field name when there is none. -/
def resolvedTag (fieldName : String) (fieldTag : StructTag) : String :=
  if fieldTag.Get "lite" = "" then fieldName else fieldTag.Get "lite"

/-- The field `Token string`, tagged `header=Authorization;isauth`. -/
def tokenField : Fields :=
  .cons "Token" [("lite", "header=Authorization;isauth")] stringType .nil

/-- A struct type `Inner` with one field. -/
def innerType : GoType :=
  .struct "Inner" (.cons "Value" [("json", "value")] stringType .nil)

/-- The fields of the request shape `struct { P *Inner; tagged query=p }`. -/
def pointerRequestFields : Fields :=
  .cons "P" [("lite", "query=p")] (.ptr "" innerType) .nil

/-- The fields of the request shape `struct { Events Signal }`, untagged. -/
def signalRequestFields : Fields :=
  .cons "Events" [] signalType .nil

/-- The five locations `register` looks for in a parsed tag. -/
def locations : List String := ["path", "query", "header", "cookie", "req"]

/-- Whether the kind passes the kind switch of `register` for a zero value: it is none of
uintptr, chan, func and unsafe pointer. -/
def supportedKind (k : Kind) : Bool :=
  decide (k ≠ .Uintptr) && decide (k ≠ .Chan) && decide (k ≠ .Func)
    && decide (k ≠ .UnsafePointer)

/-- The fields of the request shape `struct { Extra string }`, untagged. -/
def extraRequestFields : Fields :=
  .cons "Extra" [] stringType .nil

/-- The fields of the request shape `struct { ID *uint64; tagged path=id }`. -/
def optionalIdRequestFields : Fields :=
  .cons "ID" [("lite", "path=id")] (.ptr "" (.basic "uint64" .Uint64)) .nil

/-- The fields of the request shape `struct { ID uint64; tagged header=id }`. -/
def headerRequestFields : Fields :=
  .cons "ID" [("lite", "header=id")] (.basic "uint64" .Uint64) .nil

/-- The fields of the request shape `struct { Filter string; tagged query=filter }`. -/
def filterRequestFields : Fields :=
  .cons "Filter" [("lite", "query=filter")] stringType .nil

/-- The fields of the request shape `struct { Raw string; tagged req=raw }`. -/
def rawRequestFields : Fields :=
  .cons "Raw" [("lite", "req=raw")] stringType .nil

/-- The response a registration left on its operation under `code`, when there is one. -/
def responseAt (r : Registration) (code : ResponseCode) : Option Response :=
  match r.operation with
  | none => none
  | some operation =>
    match operation.Responses with
    | none => none
    | some responses => responses code

/-- A struct type like the multipart body of `TestContextWithRequest_FullBody`: a name, a file
and optional metadata. -/
def bodyRequestType : GoType :=
  .struct "bodyRequest"
    (.cons "Name" [("form", "name"), ("json", "name")] stringType
      (.cons "File" [("form", "file"), ("json", "file")] (.slice "" (.basic "uint8" .Uint8))
        (.cons "Metadata" [("form", "metadata"), ("json", "metadata")]
          (.ptr "" (.struct "metadata"
            (.cons "FirstName" [("json", "first_name")] stringType
              (.cons "LastName" [("json", "last_name")] stringType .nil)))) .nil)))

/-- The fields of the request shape `struct { Body bodyRequest; tagged req=body }`. -/
def bodyRequestFields : Fields :=
  .cons "Body" [("lite", "req=body")] bodyRequestType .nil

/-- A generator that tells its results apart by the kind of the type it is given. -/
def kindGenerator : Generator := fun v =>
  match v with
  | some (.basic n _) => .ok (some { Ref := "", Value := { Type_ := n, Format := "", Required := [] } })
  | _ => .ok (some { Ref := "", Value := Schema.empty })

/-- The request shape `struct { ID uint64; Name *string }` with `ID` tagged `path=k` and `Name`
tagged `query=k`. -/
def sharedKeyRequestFields : Fields :=
  .cons "ID" [("lite", "path=k")] (.basic "uint64" .Uint64)
    (.cons "Name" [("lite", "query=k")] (.ptr "" stringType) .nil)

/-- A struct type `Cookie` with two fields, standing for `http.Cookie`. -/
def cookieType : GoType :=
  .struct "Cookie"
    (.cons "Name" [("json", "name")] stringType
      (.cons "Value" [("json", "value")] stringType .nil))

/-- The fields of the request shape `struct { Session *Cookie; tagged cookie=session }`. -/
def sessionRequestFields : Fields :=
  .cons "Session" [("lite", "cookie=session")] (.ptr "" cookieType) .nil

/-- The fields of the request shape `struct { C Cookie; tagged query=c }`. -/
def cookieQueryFields : Fields :=
  .cons "C" [("lite", "query=c")] cookieType .nil

/-- The fields of the request shape `struct { Body Cookie; tagged req=body }`. -/
def cookieBodyFields : Fields :=
  .cons "Body" [("lite", "req=body")] cookieType .nil

/-- A new application in the process of `s`: an empty document, and the heap and the
generator as `s` left them. -/
def App.renewed (s : App) : App :=
  { App.empty with Objects := s.Objects, Types := s.Types }

/-- A generator that yields a nil reference and no error for every type. -/
def nilGenerator : Generator := fun _ => .ok none

/-- The fields of the request shape
`struct { P *Inner; Q *[]string; R *map[string]string }` tagged `query=p`, `query=q` and
`cookie=r`. -/
def pointerKindsRequestFields : Fields :=
  .cons "P" [("lite", "query=p")] (.ptr "" innerType)
    (.cons "Q" [("lite", "query=q")] (.ptr "" (.slice "" stringType))
      (.cons "R" [("lite", "cookie=r")] (.ptr "" (.map "" stringType stringType)) .nil))

/-! ## Name resolution: theorems -/

theorem dive_wrapped : ∀ (t : GoType) (d : Nat), plainCore t = true →
    dive t (d : Int) = .ok (if wrapperLevels t ≤ d then (coreType t).Name else "default")
  | .basic _ _, d, _ => by simp [dive, wrapperLevels, coreType]
  | .struct _ _, d, _ => by simp [dive, wrapperLevels, coreType]
  | .chan _ _, d, h => by simp [plainCore, coreType, GoType.Kind] at h
  | .func _, d, h => by simp [plainCore, coreType, GoType.Kind] at h
  | .unsafePointer _, d, h => by simp [plainCore, coreType, GoType.Kind] at h
  | .ptr _ e, d, h => by
    have ih := dive_wrapped e (d - 1) (by simpa [plainCore, coreType] using h)
    cases d with
    | zero => simp [dive, wrapperLevels]
    | succ k =>
      have hk : ((k : Int) + 1 = 0) = False := by simp; omega
      simp only [Nat.add_sub_cancel] at ih
      simp [dive, wrapperLevels, coreType, ih, hk]
  | .slice _ e, d, h => by
    have ih := dive_wrapped e (d - 1) (by simpa [plainCore, coreType] using h)
    cases d with
    | zero => simp [dive, wrapperLevels]
    | succ k =>
      have hk : ((k : Int) + 1 = 0) = False := by simp; omega
      simp only [Nat.add_sub_cancel] at ih
      simp [dive, wrapperLevels, coreType, ih, hk]
  | .array _ _ e, d, h => by
    have ih := dive_wrapped e (d - 1) (by simpa [plainCore, coreType] using h)
    cases d with
    | zero => simp [dive, wrapperLevels]
    | succ k =>
      have hk : ((k : Int) + 1 = 0) = False := by simp; omega
      simp only [Nat.add_sub_cancel] at ih
      simp [dive, wrapperLevels, coreType, ih, hk]
  | .map _ _ e, d, h => by
    have ih := dive_wrapped e (d - 1) (by simpa [plainCore, coreType] using h)
    cases d with
    | zero => simp [dive, wrapperLevels]
    | succ k =>
      have hk : ((k : Int) + 1 = 0) = False := by simp; omega
      simp only [Nat.add_sub_cancel] at ih
      simp [dive, wrapperLevels, coreType, ih, hk]

/-- C1, as stated, fails: for a value of the named channel type `Signal` (`chan int`), which has
no pointer, slice, array or map level and is named `Signal`, `tagFromType` unwraps the channel
and yields `"int"`, while the reference of the claim yields `"Signal"`. -/
theorem tagFromType_chan_counterexample :
    tagFromType (some signalType) = .ok "int" ∧ tagReference (some signalType) = "Signal" := by
  decide

/-- C1, amended: for every value whose type, below its pointer, slice, array and map levels, is
not of kind chan, func or unsafe pointer, `tagFromType` returns the reference:
`"unknown-interface"` for a nil interface, and for `k` wrapper levels around a core type named
`n`, `n` when `k ≤ 4` and `"default"` when `k ≥ 5`. -/
theorem tagFromType_eq_reference (v : Option GoType) (h : plainValue v = true) :
    tagFromType v = .ok (tagReference v) := by
  cases v with
  | none => rfl
  | some t =>
    have := dive_wrapped t 4 (by simpa [plainValue] using h)
    simpa [tagFromType, tagReference] using this

/-- The amended C1 at the five-level type `*[]*[]*Item` and at the one-level type `[]Item`. -/
theorem tagFromType_eq_reference_witness :
    (plainValue (some (.slice "" itemType)) = true
      ∧ tagFromType (some (.slice "" itemType)) = .ok "Item")
    ∧ tagFromType
        (some (.ptr "" (.slice "" (.ptr "" (.slice "" (.ptr "" itemType)))))) = .ok "default" :=
  ⟨⟨by decide, tagFromType_eq_reference (some (.slice "" itemType)) (by decide)⟩,
   tagFromType_eq_reference _ (by decide)⟩

/-! ## Registration: unfolding lemmas -/

theorem Fields.induction_nested {P : Fields → Prop} (hnil : P .nil)
    (hstruct : ∀ n tag sn fs rest, P fs → P rest → P (.cons n tag (.struct sn fs) rest))
    (hleaf : ∀ n tag t rest, t.isStruct = false → P rest → P (.cons n tag t rest)) :
    ∀ fs, P fs
  | .nil => hnil
  | .cons n tag (.struct sn fs) rest =>
    hstruct n tag sn fs rest (Fields.induction_nested hnil hstruct hleaf fs)
      (Fields.induction_nested hnil hstruct hleaf rest)
  | .cons n tag (.basic _ _) rest =>
    hleaf n tag _ rest rfl (Fields.induction_nested hnil hstruct hleaf rest)
  | .cons n tag (.ptr _ _) rest =>
    hleaf n tag _ rest rfl (Fields.induction_nested hnil hstruct hleaf rest)
  | .cons n tag (.slice _ _) rest =>
    hleaf n tag _ rest rfl (Fields.induction_nested hnil hstruct hleaf rest)
  | .cons n tag (.array _ _ _) rest =>
    hleaf n tag _ rest rfl (Fields.induction_nested hnil hstruct hleaf rest)
  | .cons n tag (.map _ _ _) rest =>
    hleaf n tag _ rest rfl (Fields.induction_nested hnil hstruct hleaf rest)
  | .cons n tag (.chan _ _) rest =>
    hleaf n tag _ rest rfl (Fields.induction_nested hnil hstruct hleaf rest)
  | .cons n tag (.func _) rest =>
    hleaf n tag _ rest rfl (Fields.induction_nested hnil hstruct hleaf rest)
  | .cons n tag (.unsafePointer _) rest =>
    hleaf n tag _ rest rfl (Fields.induction_nested hnil hstruct hleaf rest)

theorem register_nil (gen : Generator) (s : App) (op : Operation) :
    register gen s op .nil = { app := s, operation := op, failure := none } :=
  register.eq_1 gen s op

theorem register_cons_unsupported (gen : Generator) (s : App) (op : Operation) (n : String)
    (tag : StructTag) (t : GoType) (rest : Fields) (h : unsupportedKind (.zero t) = true) :
    register gen s op (.cons n tag t rest)
      = { app := s, operation := op, failure := some (.panic "not implemented") } := by
  rw [register.eq_3]
  · simp [h]
  · intro sn fs ht
    subst ht
    simp [unsupportedKind, Value.Kind, GoType.Kind] at h

theorem register_cons_struct (gen : Generator) (s : App) (op : Operation) (n : String)
    (tag : StructTag) (sn : String) (fs rest : Fields) (h : tag.Get "lite" = "") :
    register gen s op (.cons n tag (.struct sn fs) rest)
      = (register gen s op fs).andThen (fun s1 op1 => register gen s1 op1 rest) := by
  rw [register.eq_2 gen s op n tag rest sn fs (by simp [h])]
  simp only [unsupportedKind, Value.Kind, GoType.Kind, Outcome.andThen]
  rfl

theorem register_cons_leaf (gen : Generator) (s : App) (op : Operation) (n : String)
    (tag : StructTag) (t : GoType) (rest : Fields) (hk : unsupportedKind (.zero t) = false)
    (h : t.isStruct = false ∨ tag.Get "lite" ≠ "") :
    register gen s op (.cons n tag t rest)
      = (registerField gen s op n (tag.Get "lite") t).andThen
          (fun s1 op1 => register gen s1 op1 rest) := by
  rw [register.eq_3]
  · simp only [hk, Outcome.andThen]
    rfl
  · intro sn fs ht hd
    subst ht
    rcases h with h | h
    · simp [GoType.isStruct] at h
    · simp [h] at hd

theorem Outcome.andThen_assoc (o : Outcome) (f g : App → Operation → Outcome) :
    (o.andThen f).andThen g = o.andThen (fun s op => (f s op).andThen g) := by
  obtain ⟨s, op, fl⟩ := o
  cases fl <;> simp [Outcome.andThen]

theorem Outcome.andThen_pure (o : Outcome) :
    o.andThen (fun s op => { app := s, operation := op, failure := none }) = o := by
  obtain ⟨s, op, fl⟩ := o
  cases fl <;> simp [Outcome.andThen]

theorem Outcome.pure_andThen (s : App) (op : Operation) (f : App → Operation → Outcome) :
    ({ app := s, operation := op, failure := none } : Outcome).andThen f = f s op := rfl

theorem register_cons (gen : Generator) (s : App) (op : Operation) (n : String)
    (tag : StructTag) (t : GoType) (rest : Fields) :
    register gen s op (.cons n tag t rest)
      = (register gen s op (.cons n tag t .nil)).andThen
          (fun s1 op1 => register gen s1 op1 rest) := by
  by_cases hk : unsupportedKind (.zero t) = true
  · simp [register_cons_unsupported, hk, Outcome.andThen]
  · have hk : unsupportedKind (.zero t) = false := by simpa using hk
    by_cases h : t.isStruct = false ∨ tag.Get "lite" ≠ ""
    · rw [register_cons_leaf gen s op n tag t rest hk h,
        register_cons_leaf gen s op n tag t .nil hk h, Outcome.andThen_assoc]
      simp only [register_nil, Outcome.pure_andThen]
    · have h1 : t.isStruct = true := by
        by_contra hc; exact h (Or.inl (by simpa using hc))
      have h2 : tag.Get "lite" = "" := by
        by_contra hc; exact h (Or.inr hc)
      cases t <;> simp [GoType.isStruct] at h1
      rw [register_cons_struct gen s op n tag _ _ rest h2,
        register_cons_struct gen s op n tag _ _ .nil h2, Outcome.andThen_assoc]
      simp only [register_nil, Outcome.pure_andThen]

theorem register_append (gen : Generator) (a b : Fields) :
    ∀ (s : App) (op : Operation),
      register gen s op (a.append b)
        = (register gen s op a).andThen (fun s1 op1 => register gen s1 op1 b) := by
  induction a using Fields.induction_nested with
  | hnil => intro s op; simp [Fields.append, register_nil, Outcome.andThen]
  | hstruct n tag sn fs rest _ ih =>
    intro s op
    rw [Fields.append, register_cons, register_cons gen s op n tag _ rest,
      Outcome.andThen_assoc]
    simp only [ih]
  | hleaf n tag t rest _ ih =>
    intro s op
    rw [Fields.append, register_cons, register_cons gen s op n tag _ rest,
      Outcome.andThen_assoc]
    simp only [ih]

/-! ## Schema entries are kept -/

theorem SchemasKept.refl (s : App) : SchemasKept s s := fun _ _ h => h

theorem SchemasKept.trans {a b c : App} (h1 : SchemasKept a b) (h2 : SchemasKept b c) :
    SchemasKept a c := fun k e h => h2 k e (h1 k e h)

theorem SchemasKept.of_eq {s s1 : App} (h : s1.Schemas = s.Schemas) : SchemasKept s s1 := by
  intro k e hk
  rw [h]; exact hk

theorem SchemasKept.insert_absent (s s1 : App) (name : String) (v : Option Addr)
    (hS : s1.Schemas = s.Schemas) (h : s.Schemas name = none) :
    SchemasKept s { s1 with Schemas := GoMap.insert s1.Schemas name v } := by
  intro k e hk
  have hne : k ≠ name := by
    rintro rfl
    rw [h] at hk
    cases hk
  simp [GoMap.insert, hne, hk, hS]

theorem sameDocument_refl (s : App) : SameDocument s s := ⟨rfl, rfl, rfl, rfl, rfl⟩

theorem objectsKept_refl (s : App) : ObjectsKept s s := fun _ _ h => h

/-- A call of the generator leaves the document alone and keeps every schema object; when it
fails, it leaves everything alone. -/
theorem NewSchemaRefForValue_spec (gen : Generator) (s : App) (v : Option GoType) :
    SameDocument s (NewSchemaRefForValue gen s v).1
    ∧ ObjectsKept s (NewSchemaRefForValue gen s v).1
    ∧ (∀ e, (NewSchemaRefForValue gen s v).2 = .error e → (NewSchemaRefForValue gen s v).1 = s)
    := by
  unfold NewSchemaRefForValue
  rcases hT : s.Types v with _ | a
  · rcases hg : gen v with e | sch
    · exact ⟨sameDocument_refl s, objectsKept_refl s, fun _ _ => rfl⟩
    · cases sch with
      | none => exact ⟨sameDocument_refl s, objectsKept_refl s, fun _ _ => rfl⟩
      | some ref =>
        refine ⟨⟨rfl, rfl, rfl, rfl, rfl⟩, ?_, fun e h => by simp at h⟩
        intro a r ha
        have hlt : a < s.Objects.length := by
          rcases List.getElem?_eq_some.mp ha with ⟨h, _⟩
          exact h
        simp only
        rw [List.getElem?_append_left hlt]
        exact ha
  · exact ⟨sameDocument_refl s, objectsKept_refl s, fun _ _ => rfl⟩

theorem NewSchemaRefForValue_schemas (gen : Generator) (s : App) (v : Option GoType) :
    (NewSchemaRefForValue gen s v).1.Schemas = s.Schemas :=
  (NewSchemaRefForValue_spec gen s v).1.1

/-- With a generator that does not fail the call returns a reference, and the document is
the same after it. -/
theorem NewSchemaRefForValue_ok (gen : Generator) (s : App) (v : Option GoType)
    (hgen : ∀ v e, gen v ≠ .error e) :
    ∃ s1 x, NewSchemaRefForValue gen s v = (s1, .ok x) ∧ SameDocument s s1 := by
  have hd := (NewSchemaRefForValue_spec gen s v).1
  rcases hr : NewSchemaRefForValue gen s v with ⟨s1, e | x⟩
  · exfalso
    unfold NewSchemaRefForValue at hr
    rcases hT : s.Types v with _ | a
    · rw [hT] at hr
      rcases hg : gen v with e1 | sch
      · exact hgen _ _ hg
      · rw [hg] at hr
        cases sch <;> simp at hr
    · rw [hT] at hr; simp at hr
  · rw [hr] at hd
    exact ⟨s1, x, rfl, hd⟩

/-- The in-place append leaves the document and the generator's memory alone. -/
theorem appendRequired_spec (s s1 : App) (schema : Option Addr) (names : List String)
    (h : appendRequired s schema names = .ok s1) :
    SameDocument s s1 ∧ s1.Types = s.Types ∧ s1.Objects.length = s.Objects.length := by
  unfold appendRequired at h
  split at h
  · cases h; exact ⟨sameDocument_refl s, rfl, rfl⟩
  · cases h
  · split at h
    · cases h; exact ⟨sameDocument_refl s, rfl, rfl⟩
    · cases h; exact ⟨⟨rfl, rfl, rfl, rfl, rfl⟩, rfl, by simp⟩

theorem setParamSchema_kept (gen : Generator) (s : App) (op : Operation) (tag : String)
    (p : Parameter) (r : Bool) (t : GoType) :
    SchemasKept s (setParamSchema gen s op tag p r t).app := by
  unfold setParamSchema
  simp only
  rcases hS : s.Schemas tag with _ | v
  · have hdoc := NewSchemaRefForValue_schemas gen s (zeroInterface t)
    rcases hg : NewSchemaRefForValue gen s (zeroInterface t) with ⟨s1, e | sch⟩
    · rw [hg] at hdoc; exact SchemasKept.of_eq hdoc
    · rw [hg] at hdoc; exact SchemasKept.insert_absent s s1 tag _ hdoc hS
  · exact SchemasKept.refl s

theorem setHeaderScheme_kept (gen : Generator) (s : App) (op : Operation) (tag : String)
    (p : Parameter) : SchemasKept s (setHeaderScheme gen s op tag p).app := by
  unfold setHeaderScheme
  simp only
  rcases hS : s.Schemas tag with _ | v
  · have hdoc := NewSchemaRefForValue_schemas gen s (some (.ptr "" (.basic "string" .String)))
    rcases hg : NewSchemaRefForValue gen s (some (.ptr "" (.basic "string" .String)))
      with ⟨s1, e | sch⟩
    · rw [hg] at hdoc; exact SchemasKept.of_eq hdoc
    · rw [hg] at hdoc; exact SchemasKept.insert_absent s s1 tag _ hdoc hS
  · exact SchemasKept.refl s

theorem setSecurityScheme_kept (s : App) (op : Operation) (name tpe scheme : String) :
    SchemasKept s (setSecurityScheme s op name tpe scheme).app :=
  SchemasKept.refl s

theorem registerBody_kept (gen : Generator) (s : App) (op : Operation) (t : GoType) :
    SchemasKept s (registerBody gen s op t).app := by
  unfold registerBody
  simp only
  rcases hS : s.Schemas t.Name with _ | v
  · have hdoc := NewSchemaRefForValue_schemas gen s (zeroInterface t)
    rcases hg : NewSchemaRefForValue gen s (zeroInterface t) with ⟨s1, e | sch⟩
    · rw [hg] at hdoc; exact SchemasKept.of_eq hdoc
    · rw [hg] at hdoc
      cases t <;> simp only <;> try exact SchemasKept.of_eq hdoc
      rename_i sn fields
      rcases ha : appendRequired s1 sch (requiredNames (getStructTag "application/json") fields)
        with f | s2
      · exact SchemasKept.of_eq hdoc
      · have h2 := (appendRequired_spec s1 s2 sch _ ha).1.1
        exact SchemasKept.insert_absent s s2 _ _ (h2.trans hdoc) hS
  · exact SchemasKept.refl s

theorem registerField_kept (gen : Generator) (s : App) (op : Operation) (n tag : String)
    (t : GoType) : SchemasKept s (registerField gen s op n tag t).app := by
  unfold registerField
  simp only
  generalize (if tag = "" then n else tag) = tg
  split
  · exact setParamSchema_kept _ _ _ _ _ _ _
  · split
    · exact setParamSchema_kept _ _ _ _ _ _ _
    · split
      · split
        · exact setSecurityScheme_kept _ _ _ _ _
        · exact setHeaderScheme_kept _ _ _ _ _
      · split
        · exact setParamSchema_kept _ _ _ _ _ _ _
        · split
          · split
            · exact registerBody_kept _ _ _ _
            · exact SchemasKept.refl s
          · exact SchemasKept.refl s

theorem andThen_kept (s : App) (o : Outcome) (f : App → Operation → Outcome)
    (h1 : SchemasKept s o.app) (h2 : ∀ s1 op1, SchemasKept s1 (f s1 op1).app) :
    SchemasKept s (o.andThen f).app := by
  obtain ⟨s1, op1, fl⟩ := o
  cases fl with
  | none => exact h1.trans (h2 s1 op1)
  | some f => exact h1

theorem register_kept (gen : Generator) (fs : Fields) :
    ∀ (s : App) (op : Operation), SchemasKept s (register gen s op fs).app := by
  induction fs using Fields.induction_nested with
  | hnil => intro s op; rw [register_nil]; exact SchemasKept.refl s
  | hstruct n tag sn fs rest ihf ihr =>
    intro s op
    by_cases h : tag.Get "lite" = ""
    · rw [register_cons_struct gen s op n tag sn fs rest h]
      exact andThen_kept s _ _ (ihf s op) ihr
    · rw [register_cons_leaf gen s op n tag _ rest (by rfl) (Or.inr h)]
      exact andThen_kept s _ _ (registerField_kept _ _ _ _ _ _) ihr
  | hleaf n tag t rest ht ihr =>
    intro s op
    by_cases hk : unsupportedKind (.zero t) = true
    · rw [register_cons_unsupported gen s op n tag t rest hk]
      exact SchemasKept.refl s
    · rw [register_cons_leaf gen s op n tag t rest (by simpa using hk) (Or.inl ht)]
      exact andThen_kept s _ _ (registerField_kept _ _ _ _ _ _) ihr

theorem createDefaultErrorResponses_kept (gen : Generator) (s : App) :
    SchemasKept s (createDefaultErrorResponses gen s).1 := by
  unfold createDefaultErrorResponses
  simp only
  rcases hS : s.Schemas "httpGenericError" with _ | v
  · have hdoc := NewSchemaRefForValue_schemas gen s (some (.ptr "" httpGenericErrorType))
    rcases hg : NewSchemaRefForValue gen s (some (.ptr "" httpGenericErrorType))
      with ⟨s1, e | sch⟩
    · rw [hg] at hdoc; exact SchemasKept.of_eq hdoc
    · rw [hg] at hdoc; exact SchemasKept.insert_absent s s1 _ _ hdoc hS
  · exact SchemasKept.refl s

theorem addResponses_kept (gen : Generator) (s : App) (op : Operation)
    (method routePath c : String) (st : Int) (tag : String) (r : Option Addr) :
    SchemasKept s (addResponses gen s op method routePath c st tag r).app := by
  have h := createDefaultErrorResponses_kept gen s
  unfold addResponses
  simp only
  rcases hc : createDefaultErrorResponses gen s with ⟨s1, e | rs⟩
  · rw [hc] at h; exact h
  · rw [hc] at h; exact h

theorem responseSchemaFor_kept (gen : Generator) (s : App) (c tag : String) (T : GoType) :
    SchemasKept s (responseSchemaFor gen s c tag T).1 := by
  unfold responseSchemaFor
  rcases hS : s.Schemas tag with _ | v
  · simp only
    have hdoc := NewSchemaRefForValue_schemas gen s (some (.ptr "" T))
    rcases hg : NewSchemaRefForValue gen s (some (.ptr "" T)) with ⟨s1, e | sch⟩
    · rw [hg] at hdoc; exact SchemasKept.of_eq hdoc
    · rw [hg] at hdoc
      simp only
      split
      · exact SchemasKept.of_eq hdoc
      · rename_i fields _
        rcases ha : appendRequired s1 sch (requiredNames (getStructTag c) fields) with f | s2
        · exact SchemasKept.of_eq hdoc
        · have h2 := (appendRequired_spec s1 s2 sch _ ha).1.1
          exact SchemasKept.insert_absent s s2 _ _ (h2.trans hdoc) hS
      · exact SchemasKept.insert_absent s s1 _ _ hdoc hS
  · exact SchemasKept.refl s

/-- No slot of `Components.Schemas` is reassigned by a registration: every name holds after it
the reference it held before. The schema object behind the reference is another matter, as
the append of the required names writes to it in place. -/
theorem registerOpenAPIOperation_kept (gen : Generator) (T Q : GoType) (s : App)
    (method path c : String) (st : Int) :
    SchemasKept s (registerOpenAPIOperation gen T Q s method path c st).app := by
  unfold registerOpenAPIOperation
  cases Q <;> try exact SchemasKept.refl s
  rename_i qn fields
  simp only
  have hreg := register_kept gen fields s { Operation.empty with OperationID := method ++ path }
  rcases hr : register gen s { Operation.empty with OperationID := method ++ path } fields
    with ⟨s1, op1, fl⟩
  rw [hr] at hreg
  cases fl with
  | some f => exact hreg
  | none =>
    simp only
    rcases ht : tagFromType (zeroInterface T) with f | tag
    · exact hreg
    · simp only
      have hrs := responseSchemaFor_kept gen s1 c tag T
      rcases hq : responseSchemaFor gen s1 c tag T with ⟨s2, f | rs⟩
      · rw [hq] at hrs
        cases f <;> exact hreg.trans hrs
      · rw [hq] at hrs
        exact (hreg.trans hrs).trans (addResponses_kept _ _ _ _ _ _ _ _ _)

/-! ## The response schema -/

theorem requiredNames_eq (structTag : String) (fields : Fields) :
    requiredNames structTag fields
      = (nonPointerFields fields).map (fun f => f.2.1.Get structTag) := by
  induction fields using Fields.induction_nested with
  | hnil => simp [requiredNames, nonPointerFields, Fields.toList]
  | hstruct n tag sn fs rest _ ih =>
    simp [requiredNames, nonPointerFields, Fields.toList, GoType.Kind] at ih ⊢
    exact ih
  | hleaf n tag t rest _ ih =>
    simp only [requiredNames, nonPointerFields, Fields.toList] at ih ⊢
    by_cases h : t.Kind = .Ptr <;> simp [h, ih]

theorem appendRequired_valid (s : App) (a : Addr) (ref : SchemaRef) (names : List String)
    (h : s.Objects[a]? = some ref) :
    ∃ s1, appendRequired s (some a) names = .ok s1
      ∧ s1.Objects[a]? = some (ref.withRequired (ref.Value.Required ++ names))
      ∧ SameDocument s s1 := by
  have hlt : a < s.Objects.length := by
    rcases List.getElem?_eq_some.mp h with ⟨hl, _⟩
    exact hl
  cases names with
  | nil =>
    refine ⟨s, rfl, ?_, sameDocument_refl s⟩
    obtain ⟨r, ⟨ty, fmt, req⟩⟩ := ref
    simpa [SchemaRef.withRequired] using h
  | cons x xs =>
    refine ⟨{ s with
        Objects := s.Objects.set a (ref.withRequired (ref.Value.Required ++ x :: xs)) },
      ?_, ?_, ⟨rfl, rfl, rfl, rfl, rfl⟩⟩
    · simp only [appendRequired, h, SchemaRef.withRequired]
    · simp [hlt]

theorem createDefaultErrorResponses_objects (gen : Generator) (s : App) :
    ObjectsKept s (createDefaultErrorResponses gen s).1 := by
  unfold createDefaultErrorResponses
  simp only
  rcases hS : s.Schemas "httpGenericError" with _ | v
  · have hobj := (NewSchemaRefForValue_spec gen s (some (.ptr "" httpGenericErrorType))).2.1
    rcases hg : NewSchemaRefForValue gen s (some (.ptr "" httpGenericErrorType))
      with ⟨s1, e | sch⟩
    · rw [hg] at hobj; exact hobj
    · rw [hg] at hobj; exact hobj
  · exact objectsKept_refl s

theorem addResponses_objects (gen : Generator) (s : App) (op : Operation)
    (method routePath c : String) (st : Int) (tag : String) (r : Option Addr) :
    ObjectsKept s (addResponses gen s op method routePath c st tag r).app := by
  have h := createDefaultErrorResponses_objects gen s
  unfold addResponses
  simp only
  rcases hc : createDefaultErrorResponses gen s with ⟨s1, e | rs⟩
  · rw [hc] at h; exact h
  · rw [hc] at h; exact h

theorem Outcome.eq_of_succeeded (o : Outcome) (h : o.failure = none) :
    o = { app := o.app, operation := o.operation, failure := none } := by
  obtain ⟨s, op, fl⟩ := o
  simp only at h
  subst h
  rfl

/-- What the lookup of lines 39-60 leaves for a struct response type whose name is absent, when
the generator hands out the object at `a` with contents `ref`: the object is stored under the
name and the required names of the fields are appended to those it already had. -/
theorem responseSchemaFor_struct (gen : Generator) (s1 s2 : App) (C n : String)
    (fields : Fields) (a : Addr) (ref : SchemaRef)
    (habs : s1.Schemas n = none)
    (hgen : NewSchemaRefForValue gen s1 (some (.ptr "" (.struct n fields)))
      = (s2, .ok (some a)))
    (hobj : s2.Objects[a]? = some ref) :
    ∃ s3, responseSchemaFor gen s1 C n (.struct n fields) = (s3, .ok (some a))
      ∧ s3.Schemas n = some (some a)
      ∧ s3.Objects[a]?
          = some (ref.withRequired (ref.Value.Required ++ requiredReference C fields)) := by
  obtain ⟨s3, happ, hcontent, _⟩ := appendRequired_valid s2 a ref
    (requiredNames (getStructTag C) fields) hobj
  have hz : zeroInterface (.struct n fields) = some (.struct n fields) := rfl
  refine ⟨{ s3 with Schemas := GoMap.insert s3.Schemas n (some a) }, ?_, ?_, ?_⟩
  · unfold responseSchemaFor
    simp only [habs, hgen, hz, happ]
  · simp [GoMap.insert]
  · rw [requiredNames_eq] at hcontent
    exact hcontent

/-- C2, as stated, fails, in two ways. With a request shape whose body field is of the response
type `Pair`, the name `Pair` is absent from `Components.Schemas` before the registration, yet
for the content type `application/xml` the schema stored under `Pair` has the required names
of the `json` tags, `["id", "name"]`, not those of the `xml` tags, `["Id", "Name"]`: the body
branch of `register` stores the schema first and the response reuses it. And a new
application of the same process, in whose document `Pair` is absent, that registers the
response type `Pair` after an earlier application did, gets the schema object the generator
kept and appends the required names to it a second time: four entries for two fields. -/
theorem response_schema_body_first_counterexample :
    App.empty.Schemas "Pair" = none
    ∧ (registerOpenAPIOperation emptyGenerator pairType
        (.struct "Req" (.cons "Body" [("lite", "req=body")] pairType .nil)) App.empty
        "POST" "/pairs" "application/xml" 201).failure = none
    ∧ (registerOpenAPIOperation emptyGenerator pairType
        (.struct "Req" (.cons "Body" [("lite", "req=body")] pairType .nil)) App.empty
        "POST" "/pairs" "application/xml" 201).app.schemaAt "Pair"
        = some (some { Ref := "", Value := { Type_ := "", Format := "", Required := ["id", "name"] } })
    ∧ requiredReference "application/xml"
        (.cons "ID" [("json", "id"), ("xml", "Id")] (.basic "uint64" .Uint64)
          (.cons "Name" [("json", "name"), ("xml", "Name")] stringType
            (.cons "Note" [("json", "note"), ("xml", "Note")] (.ptr "" stringType) .nil)))
        = ["Id", "Name"]
    ∧ ((registerOpenAPIOperation emptyGenerator pairType (.struct "Req" idRequestFields) App.empty
        "GET" "/pairs/:id" "application/xml" 200).app.renewed).Schemas "Pair" = none
    ∧ (registerOpenAPIOperation emptyGenerator pairType (.struct "Req" idRequestFields)
        (registerOpenAPIOperation emptyGenerator pairType (.struct "Req" idRequestFields)
          App.empty "GET" "/pairs/:id" "application/xml" 200).app.renewed
        "GET" "/pairs/:id" "application/xml" 200).app.schemaAt "Pair"
      = some (some
          { Ref := "", Value :=
              { Type_ := "", Format := "", Required := ["Id", "Name", "Id", "Name"] } }) := by
  decide

/-- C2, amended: when the response type is a struct `n` whose name is not in
`Components.Schemas` at the lookup of line 39, after the request shape has been registered,
and the schema object the generator hands out for it has no required names yet, then the
schema stored under `n` is that object with a required list of exactly one entry per direct
field that is not of pointer kind, in declaration order, each the value of the field's tag
under `getStructTag C`; its length is the number of such fields; `getStructTag` selects `json`
for `application/json` and `xml` for `application/xml`. -/
theorem response_schema_required (gen : Generator) (n : String) (fields : Fields) (qn : String)
    (qfields : Fields) (s : App) (method path C : String) (st : Int) (s1 : App)
    (op1 : Operation) (s2 : App) (a : Addr) (ref : SchemaRef)
    (hreg : register gen s { Operation.empty with OperationID := method ++ path } qfields
      = { app := s1, operation := op1, failure := none })
    (habs : s1.Schemas n = none)
    (hgen : NewSchemaRefForValue gen s1 (some (.ptr "" (.struct n fields)))
      = (s2, .ok (some a)))
    (hobj : s2.Objects[a]? = some ref)
    (href : ref.Value.Required = []) :
    (registerOpenAPIOperation gen (.struct n fields) (.struct qn qfields) s method path C
        st).app.schemaAt n
      = some (some (ref.withRequired (requiredReference C fields)))
    ∧ (requiredReference C fields).length = (nonPointerFields fields).length
    ∧ getStructTag "application/json" = "json" ∧ getStructTag "application/xml" = "xml" := by
  refine ⟨?_, by simp [requiredReference], by decide, by decide⟩
  have htag : tagFromType (zeroInterface (.struct n fields)) = .ok n := rfl
  obtain ⟨s3, hrs, hS3, hO3⟩ := responseSchemaFor_struct gen s1 s2 C n fields a ref habs hgen hobj
  rw [href, List.nil_append] at hO3
  have hS := addResponses_kept gen s3 op1 method (parseRoutePath path) C st n (some a) n _ hS3
  have hO := addResponses_objects gen s3 op1 method (parseRoutePath path) C st n (some a) a _ hO3
  unfold registerOpenAPIOperation
  simp only [hreg, htag, hrs]
  simp only [App.schemaAt, hS, hO]

/-- The amended C2 at the response type `Pair` (two fields that are not pointers, one that is)
with content type `application/xml`: the stored required list is `["Id", "Name"]`, of
length 2. -/
theorem response_schema_required_witness :
    (register emptyGenerator App.empty
        { Operation.empty with OperationID := "GET" ++ "/pairs/:id" } idRequestFields).app.Schemas
        "Pair" = none
    ∧ (registerOpenAPIOperation emptyGenerator pairType (.struct "Req" idRequestFields) App.empty
        "GET" "/pairs/:id" "application/xml" 200).app.schemaAt "Pair"
      = some (some { Ref := "", Value := { Type_ := "", Format := "", Required := ["Id", "Name"] } })
    ∧ (requiredReference "application/xml"
        (.cons "ID" [("json", "id"), ("xml", "Id")] (.basic "uint64" .Uint64)
          (.cons "Name" [("json", "name"), ("xml", "Name")] stringType
            (.cons "Note" [("json", "note"), ("xml", "Note")] (.ptr "" stringType) .nil)))).length
        = 2 :=
  ⟨by decide,
   (response_schema_required emptyGenerator "Pair" _ "Req" idRequestFields App.empty "GET"
      "/pairs/:id" "application/xml" 200 _ _ _ 1 { Ref := "", Value := Schema.empty }
      (Outcome.eq_of_succeeded _ (by decide)) (by decide) rfl (by decide) rfl).1,
   by decide⟩

/-- C3, the code at failing inputs. A route with the cookie parameter `Session *Cookie` stores
the schema object the generator makes for `*Cookie` under `session`, with no required names.
A later route with the response type `Cookie` gets the same object again from the generator
(`new(Cookie)` is of type `*Cookie`) and appends the required names to it in place
(openapi.go 54): the entry `session` still holds the same address, but the schema behind it
now has the required list `["name", "value"]`. Likewise for `register` alone: after the
field `C Cookie` tagged `query=c`, registering a body field of type `Cookie` appends to the
object stored under `c` (openapi.go 199). -/
theorem schema_entry_changed_in_place :
    (registerOpenAPIOperation emptyGenerator pairType (.struct "Req" sessionRequestFields)
        App.empty "GET" "/pairs" "application/json" 200).app.schemaAt "session"
      = some (some { Ref := "", Value := { Type_ := "", Format := "", Required := [] } })
    ∧ (registerOpenAPIOperation emptyGenerator cookieType (.struct "All" .nil)
        (registerOpenAPIOperation emptyGenerator pairType (.struct "Req" sessionRequestFields)
          App.empty "GET" "/pairs" "application/json" 200).app
        "GET" "/cookie" "application/json" 200).failure = none
    ∧ (registerOpenAPIOperation emptyGenerator cookieType (.struct "All" .nil)
        (registerOpenAPIOperation emptyGenerator pairType (.struct "Req" sessionRequestFields)
          App.empty "GET" "/pairs" "application/json" 200).app
        "GET" "/cookie" "application/json" 200).app.Schemas "session"
      = (registerOpenAPIOperation emptyGenerator pairType (.struct "Req" sessionRequestFields)
          App.empty "GET" "/pairs" "application/json" 200).app.Schemas "session"
    ∧ (registerOpenAPIOperation emptyGenerator cookieType (.struct "All" .nil)
        (registerOpenAPIOperation emptyGenerator pairType (.struct "Req" sessionRequestFields)
          App.empty "GET" "/pairs" "application/json" 200).app
        "GET" "/cookie" "application/json" 200).app.schemaAt "session"
      = some (some
          { Ref := "", Value := { Type_ := "", Format := "", Required := ["name", "value"] } })
    ∧ (register emptyGenerator App.empty Operation.empty cookieQueryFields).app.schemaAt "c"
      = some (some { Ref := "", Value := { Type_ := "", Format := "", Required := [] } })
    ∧ (register emptyGenerator
        (register emptyGenerator App.empty Operation.empty cookieQueryFields).app
        Operation.empty cookieBodyFields).failure = none
    ∧ (register emptyGenerator
        (register emptyGenerator App.empty Operation.empty cookieQueryFields).app
        Operation.empty cookieBodyFields).app.schemaAt "c"
      = some (some
          { Ref := "", Value := { Type_ := "", Format := "", Required := ["name", "value"] } }) := by
  decide

/-! ## Responses of a registered operation -/

theorem addResponses_eq (gen : Generator) (s : App) (op : Operation)
    (method routePath c : String) (st : Int) (tag : String) (rs : Option Addr) :
    addResponses gen s op method routePath c st tag rs
      = match createDefaultErrorResponses gen s with
        | (s, .error e) => { app := s, operation := none, failure := some (.error e) }
        | (s, .ok responses) =>
          { app := AddOperation s routePath method (completedOperation op c st tag rs responses),
            operation := some (completedOperation op c st tag rs responses), failure := none } := by
  unfold addResponses completedOperation successResponse
  cases rs <;> rfl

theorem createDefaultErrorResponses_ok (gen : Generator) (s s1 : App)
    (responses : List (Int × Response))
    (h : createDefaultErrorResponses gen s = (s1, .ok responses)) :
    responses.map Prod.fst = errorCatalogue.map Prod.fst := by
  unfold createDefaultErrorResponses at h
  simp only at h
  rcases hS : s.Schemas "httpGenericError" with _ | v
  · rw [hS] at h
    rcases hg : NewSchemaRefForValue gen s (some (.ptr "" httpGenericErrorType))
      with ⟨s2, e | sch⟩
    · rw [hg] at h; simp at h
    · rw [hg] at h
      simp only [Prod.mk.injEq, Except.ok.injEq] at h
      rw [← h.2]
      simp [errorCatalogue]
  · rw [hS] at h
    simp only [Prod.mk.injEq, Except.ok.injEq] at h
    rw [← h.2]
    simp [errorCatalogue]

theorem AddResponse_responses (op : Operation) (st : Int) (r : Response) :
    ∃ R, (AddResponse op st r).Responses = some R
      ∧ (0 < st ∧ st < 1000 → R (.status st) = some r)
      ∧ (∀ R0, op.Responses = some R0 → ∀ c, c ≠ .default →
          (0 < st ∧ st < 1000 → c ≠ .status st) → R c = R0 c) := by
  unfold AddResponse
  refine ⟨_, rfl, ?_, ?_⟩
  · intro h
    simp [h, Responses.Set]
  · intro R0 hR0 c hc hne
    simp only [hR0]
    by_cases h : 0 < st ∧ st < 1000
    · simp [h, Responses.Set, hne h]
    · simp [h, Responses.Set, hc]

theorem foldl_AddResponse_responses (responses : List (Int × Response)) :
    ∀ (op : Operation) (R0 : Responses), op.Responses = some R0 →
      ∃ R, (responses.foldl (fun op r => AddResponse op r.1 r.2) op).Responses = some R
        ∧ ∀ c, c ≠ .default → (∀ st ∈ responses.map Prod.fst, c ≠ .status st) → R c = R0 c := by
  induction responses with
  | nil => intro op R0 h; exact ⟨R0, h, fun _ _ _ => rfl⟩
  | cons r rest ih =>
    intro op R0 h
    obtain ⟨R1, hR1, _, hkeep⟩ := AddResponse_responses op r.1 r.2
    obtain ⟨R, hR, hRkeep⟩ := ih (AddResponse op r.1 r.2) R1 hR1
    refine ⟨R, by simpa using hR, ?_⟩
    intro c hc hne
    rw [hRkeep c hc (fun st hst => hne st (by simp at hst ⊢; exact Or.inr hst))]
    exact hkeep R0 h c hc (fun _ => hne r.1 (by simp))

theorem completedOperation_success (op : Operation) (c : String) (st : Int) (tag : String)
    (rs : Option Addr) (responses : List (Int × Response))
    (hcodes : responses.map Prod.fst = errorCatalogue.map Prod.fst)
    (hst : plainStatus st = true) :
    ∃ R, (completedOperation op c st tag rs responses).Responses = some R
      ∧ R (.status st) = some (successResponse c tag rs) := by
  simp only [plainStatus, Bool.and_eq_true, decide_eq_true_eq, Bool.not_eq_true',
    List.contains_eq_any_beq, List.any_eq_false] at hst
  obtain ⟨R1, hR1, hset, _⟩ := AddResponse_responses op st (successResponse c tag rs)
  obtain ⟨R, hR, hkeep⟩ := foldl_AddResponse_responses responses _ R1 hR1
  refine ⟨Responses.Delete R .default, ?_, ?_⟩
  · simp [completedOperation, hR]
  · have : R (.status st) = R1 (.status st) := by
      apply hkeep _ (by simp)
      intro st' hst' heq
      rw [hcodes] at hst'
      have := hst.2 st' hst'
      simp only [ResponseCode.status.injEq] at heq
      subst heq
      simp at this
    simp [Responses.Delete, this, hset hst.1]
theorem registerOpenAPIOperation_succeeded (gen : Generator) (T Q : GoType) (s : App)
    (method path c : String) (st : Int)
    (h : (registerOpenAPIOperation gen T Q s method path c st).failure = none) :
    ∃ qn qfields s1 op1 tag rs s2 s3 responses,
      Q = .struct qn qfields
      ∧ register gen s { Operation.empty with OperationID := method ++ path } qfields
          = { app := s1, operation := op1, failure := none }
      ∧ tagFromType (zeroInterface T) = .ok tag
      ∧ responseSchemaFor gen s1 c tag T = (s2, .ok rs)
      ∧ createDefaultErrorResponses gen s2 = (s3, .ok responses)
      ∧ registerOpenAPIOperation gen T Q s method path c st
          = { app := AddOperation s3 (parseRoutePath path) method
                (completedOperation op1 c st tag rs responses),
              operation := some (completedOperation op1 c st tag rs responses),
              failure := none } := by
  unfold registerOpenAPIOperation at h ⊢
  cases Q <;> try (simp at h)
  rename_i qn qfields
  rcases hr : register gen s { Operation.empty with OperationID := method ++ path } qfields
    with ⟨s1, op1, fl⟩
  simp only [hr] at h ⊢
  cases fl with
  | some f => simp at h
  | none =>
    simp only at h ⊢
    rcases ht : tagFromType (zeroInterface T) with f | tag
    · simp [ht] at h
    · simp only [ht] at h ⊢
      rcases hq : responseSchemaFor gen s1 c tag T with ⟨s2, f | rs⟩
      · simp only [hq] at h
        cases f <;> simp at h
      · simp only [hq, addResponses_eq] at h ⊢
        rcases hc : createDefaultErrorResponses gen s2 with ⟨s3, e | responses⟩
        · simp [hc] at h
        · exact ⟨qn, qfields, s1, op1, tag, rs, s2, s3, responses, rfl, hr, rfl, hq, hc, by simp⟩

theorem responseSchemaFor_ok (gen : Generator) (s s2 : App) (c tag : String) (T : GoType)
    (rs : Option Addr) (h : responseSchemaFor gen s c tag T = (s2, .ok rs)) :
    s2.Schemas tag = some rs := by
  unfold responseSchemaFor at h
  rcases hS : s.Schemas tag with _ | v
  · simp only [hS] at h
    rcases hg : NewSchemaRefForValue gen s (some (.ptr "" T)) with ⟨s1, e | sch⟩
    · simp [hg] at h
    · simp only [hg] at h
      split at h
      · simp at h
      · split at h
        · simp at h
        · simp only [Prod.mk.injEq, Except.ok.injEq] at h
          rw [← h.1, ← h.2]; simp [GoMap.insert]
      · simp only [Prod.mk.injEq, Except.ok.injEq] at h
        rw [← h.1, ← h.2]; simp [GoMap.insert]
  · simp only [hS, Prod.mk.injEq, Except.ok.injEq] at h
    rw [← h.1, ← h.2]; exact hS

theorem responseSchemaFor_present (gen : Generator) (s : App) (c tag : String) (T : GoType)
    (e : Option Addr) (h : s.Schemas tag = some e) :
    responseSchemaFor gen s c tag T = (s, .ok e) := by
  unfold responseSchemaFor
  simp [h]

/-- What a successful registration leaves: the schema entry under the resolved name and, for a
plain status code, the success response on the returned operation. -/
theorem registerOpenAPIOperation_result (gen : Generator) (T Q : GoType) (s : App)
    (method path c : String) (st : Int) (tag : String)
    (h : (registerOpenAPIOperation gen T Q s method path c st).failure = none)
    (ht : tagFromType (zeroInterface T) = .ok tag) :
    ∃ rs, (registerOpenAPIOperation gen T Q s method path c st).app.Schemas tag = some rs
      ∧ (∀ e, s.Schemas tag = some e → rs = e)
      ∧ (plainStatus st = true →
          successSchemaRef (registerOpenAPIOperation gen T Q s method path c st) st c
            = (successResponse c tag rs).Content c) := by
  obtain ⟨qn, qfields, s1, op1, tag', rs, s2, s3, responses, _, hreg, ht', hrs, hc, heq⟩ :=
    registerOpenAPIOperation_succeeded gen T Q s method path c st h
  rw [ht] at ht'
  cases ht'
  have h2 : s2.Schemas tag = some rs := responseSchemaFor_ok gen s1 s2 c tag T rs hrs
  have h3 : s3.Schemas tag = some rs := by
    have := createDefaultErrorResponses_kept gen s2 tag rs h2
    rwa [hc] at this
  refine ⟨rs, ?_, ?_, ?_⟩
  · rw [heq]; exact h3
  · intro e he
    have h1 : s1.Schemas tag = some e := by
      have := register_kept gen qfields s
        { Operation.empty with OperationID := method ++ path } tag e he
      rwa [hreg] at this
    rw [responseSchemaFor_present gen s1 c tag T e h1] at hrs
    simp only [Prod.mk.injEq, Except.ok.injEq] at hrs
    exact hrs.2.symm
  · intro hst
    obtain ⟨R, hR, hRst⟩ := completedOperation_success op1 c st tag rs responses
      (createDefaultErrorResponses_ok gen s2 s3 responses hc) hst
    rw [heq]
    simp [successSchemaRef, hR, hRst]

theorem successResponse_content (c tag : String) (e : Addr) :
    (successResponse c tag (some e)).Content c
      = some (NewSchemaRef ("#/components/schemas/" ++ tag) Schema.empty) := by
  simp [successResponse, NewContentWithSchemaRef, GoMap.insert]

/-- C4, as stated, fails. The response types `Pair` and `[]Pair` resolve to the same name and
both registrations succeed, but with the declared status code 400 the response left under
400 on either operation is the error response of the catalogue, which references
`httpGenericError`, not `Pair`. And when the generator returns a nil reference, the entry
under the name is nil and the success response of either operation has no content
(openapi.go 64), so it references nothing. -/
theorem same_name_error_status_counterexample :
    tagFromType (zeroInterface pairType) = .ok "Pair"
    ∧ tagFromType (zeroInterface (.slice "" pairType)) = .ok "Pair"
    ∧ (registerOpenAPIOperation emptyGenerator pairType (.struct "Req" idRequestFields)
        App.empty "GET" "/pairs/:id" "application/json" 400).failure = none
    ∧ (registerOpenAPIOperation emptyGenerator (.slice "" pairType) (.struct "All" .nil)
        (registerOpenAPIOperation emptyGenerator pairType (.struct "Req" idRequestFields)
          App.empty "GET" "/pairs/:id" "application/json" 400).app
        "GET" "/pairs" "application/json" 400).failure = none
    ∧ successSchemaRef (registerOpenAPIOperation emptyGenerator pairType
          (.struct "Req" idRequestFields) App.empty "GET" "/pairs/:id" "application/json" 400)
        400 "application/json"
        = some (NewSchemaRef "#/components/schemas/httpGenericError" Schema.empty)
    ∧ successSchemaRef (registerOpenAPIOperation emptyGenerator (.slice "" pairType)
          (.struct "All" .nil)
          (registerOpenAPIOperation emptyGenerator pairType (.struct "Req" idRequestFields)
            App.empty "GET" "/pairs/:id" "application/json" 400).app
          "GET" "/pairs" "application/json" 400) 400 "application/json"
        = some (NewSchemaRef "#/components/schemas/httpGenericError" Schema.empty)
    ∧ (registerOpenAPIOperation nilGenerator (.slice "" pairType) (.struct "All" .nil)
        App.empty "GET" "/pairs" "application/json" 200).failure = none
    ∧ (registerOpenAPIOperation nilGenerator (.slice "" pairType) (.struct "All" .nil)
        App.empty "GET" "/pairs" "application/json" 200).app.Schemas "Pair" = some none
    ∧ (registerOpenAPIOperation nilGenerator (.array "" 2 pairType) (.struct "All" .nil)
        (registerOpenAPIOperation nilGenerator (.slice "" pairType) (.struct "All" .nil)
          App.empty "GET" "/pairs" "application/json" 200).app
        "GET" "/pair" "application/json" 200).failure = none
    ∧ successSchemaRef (registerOpenAPIOperation nilGenerator (.slice "" pairType)
          (.struct "All" .nil) App.empty "GET" "/pairs" "application/json" 200)
        200 "application/json" = none
    ∧ successSchemaRef (registerOpenAPIOperation nilGenerator (.array "" 2 pairType)
          (.struct "All" .nil)
          (registerOpenAPIOperation nilGenerator (.slice "" pairType) (.struct "All" .nil)
            App.empty "GET" "/pairs" "application/json" 200).app
          "GET" "/pair" "application/json" 200) 200 "application/json" = none := by
  decide

/-- C4, amended: when two routes are registered one after the other, both registrations
succeed, and the two response types resolve through `tagFromType` to the same name `n`, then
`Components.Schemas` holds under `n`, after both, the very entry (the same reference to a
schema object) it held after the first registration; and, the entry not being a nil
reference and each declared status code being a code of its own (between 1 and 999 and none
of the error catalogue), the success response of both operations references
`#/components/schemas/n`. -/
theorem same_name_one_schema (gen : Generator) (T1 Q1 T2 Q2 : GoType) (s : App)
    (m1 p1 c1 m2 p2 c2 : String) (st1 st2 : Int) (n : String)
    (ht1 : tagFromType (zeroInterface T1) = .ok n)
    (ht2 : tagFromType (zeroInterface T2) = .ok n)
    (h1 : (registerOpenAPIOperation gen T1 Q1 s m1 p1 c1 st1).failure = none)
    (h2 : (registerOpenAPIOperation gen T2 Q2
            (registerOpenAPIOperation gen T1 Q1 s m1 p1 c1 st1).app m2 p2 c2 st2).failure = none)
    (hs1 : plainStatus st1 = true) (hs2 : plainStatus st2 = true)
    (hnil : (registerOpenAPIOperation gen T1 Q1 s m1 p1 c1 st1).app.Schemas n ≠ some none) :
    ∃ e, (registerOpenAPIOperation gen T1 Q1 s m1 p1 c1 st1).app.Schemas n = some (some e)
      ∧ (registerOpenAPIOperation gen T2 Q2
            (registerOpenAPIOperation gen T1 Q1 s m1 p1 c1 st1).app m2 p2 c2 st2).app.Schemas n
          = some (some e)
      ∧ successSchemaRef (registerOpenAPIOperation gen T1 Q1 s m1 p1 c1 st1) st1 c1
          = some (NewSchemaRef ("#/components/schemas/" ++ n) Schema.empty)
      ∧ successSchemaRef (registerOpenAPIOperation gen T2 Q2
            (registerOpenAPIOperation gen T1 Q1 s m1 p1 c1 st1).app m2 p2 c2 st2) st2 c2
          = some (NewSchemaRef ("#/components/schemas/" ++ n) Schema.empty) := by
  obtain ⟨rs1, hS1, _, hR1⟩ := registerOpenAPIOperation_result gen T1 Q1 s m1 p1 c1 st1 n h1 ht1
  obtain ⟨rs2, hS2, hsame, hR2⟩ := registerOpenAPIOperation_result gen T2 Q2 _ m2 p2 c2 st2 n h2 ht2
  have h21 : rs2 = rs1 := hsame rs1 hS1
  subst h21
  cases rs2 with
  | none => exact absurd hS1 hnil
  | some e =>
    exact ⟨e, hS1, hS2, by rw [hR1 hs1, successResponse_content],
      by rw [hR2 hs2, successResponse_content]⟩

/-- The amended C4 at the response types `Pair` and `[]Pair`, registered in this order on an empty
document: both resolve to `Pair`, and both operations reference the one entry. -/
theorem same_name_one_schema_witness :
    tagFromType (zeroInterface pairType) = .ok "Pair"
    ∧ tagFromType (zeroInterface (.slice "" pairType)) = .ok "Pair"
    ∧ ∃ e, (registerOpenAPIOperation emptyGenerator pairType (.struct "Req" idRequestFields)
          App.empty "GET" "/pairs/:id" "application/json" 200).app.Schemas "Pair" = some (some e)
      ∧ (registerOpenAPIOperation emptyGenerator (.slice "" pairType) (.struct "All" .nil)
            (registerOpenAPIOperation emptyGenerator pairType (.struct "Req" idRequestFields)
              App.empty "GET" "/pairs/:id" "application/json" 200).app
            "GET" "/pairs" "application/json" 200).app.Schemas "Pair" = some (some e)
      ∧ successSchemaRef (registerOpenAPIOperation emptyGenerator pairType
            (.struct "Req" idRequestFields) App.empty "GET" "/pairs/:id" "application/json" 200)
          200 "application/json"
          = some (NewSchemaRef ("#/components/schemas/" ++ "Pair") Schema.empty)
      ∧ successSchemaRef (registerOpenAPIOperation emptyGenerator (.slice "" pairType)
            (.struct "All" .nil)
            (registerOpenAPIOperation emptyGenerator pairType (.struct "Req" idRequestFields)
              App.empty "GET" "/pairs/:id" "application/json" 200).app
            "GET" "/pairs" "application/json" 200) 200 "application/json"
          = some (NewSchemaRef ("#/components/schemas/" ++ "Pair") Schema.empty) :=
  ⟨by decide, by decide,
   same_name_one_schema emptyGenerator pairType (.struct "Req" idRequestFields)
     (.slice "" pairType) (.struct "All" .nil) App.empty "GET" "/pairs/:id" "application/json"
     "GET" "/pairs" "application/json" 200 200 "Pair" (by decide) (by decide) (by decide)
     (by decide) (by decide) (by decide) (by decide)⟩

/-! ## Fields of a request shape -/

theorem registerField_isauth (gen : Generator) (s : App) (op : Operation) (fieldName tag : String)
    (t : GoType) (headerKey authValue : String)
    (hpath : parseTag (if tag = "" then fieldName else tag) "path" = none)
    (hquery : parseTag (if tag = "" then fieldName else tag) "query" = none)
    (hheader : parseTag (if tag = "" then fieldName else tag) "header" = some headerKey)
    (hauth : parseTag (if tag = "" then fieldName else tag) "isauth" = some authValue) :
    registerField gen s op fieldName tag t
      = setSecurityScheme s op
          ((parseTag (if tag = "" then fieldName else tag) "name").getD "Authorization") "http"
          ((parseTag (if tag = "" then fieldName else tag) "scheme").getD "bearer") := by
  unfold registerField
  simp only [hpath, hquery, hheader, hauth, Option.isSome_some, if_true]
  congr 1
  · cases parseTag (if tag = "" then fieldName else tag) "name" <;> rfl
  · cases parseTag (if tag = "" then fieldName else tag) "scheme" <;> rfl

/-- C5: a field that `register` binds to a header (its parsed tag has the key `header` and
neither `path` nor `query`, which are tested first) and whose tag carries `isauth` is
processed as follows, from any state and before any further fields: one entry is written to
`Components.SecuritySchemes`, named by the `name` modifier (`"Authorization"` when absent),
of type `"http"` and with the scheme of the `scheme` modifier (`"bearer"` when absent); one
security requirement on that same name is appended to the operation; and nothing else
changes: `operation.Parameters`, `Components.Parameters`, `Components.Headers` and
`Components.Schemas` are as before. -/
theorem isauth_header_security (gen : Generator) (s : App) (op : Operation)
    (fieldName : String) (fieldTag : StructTag) (t : GoType) (headerKey authValue : String)
    (hk : unsupportedKind (.zero t) = false)
    (hleaf : t.isStruct = false ∨ fieldTag.Get "lite" ≠ "")
    (hpath : parseTag (resolvedTag fieldName fieldTag) "path" = none)
    (hquery : parseTag (resolvedTag fieldName fieldTag) "query" = none)
    (hheader : parseTag (resolvedTag fieldName fieldTag) "header" = some headerKey)
    (hauth : parseTag (resolvedTag fieldName fieldTag) "isauth" = some authValue) :
    ∃ (s1 : App) (op1 : Operation) (requirement : SecurityRequirement),
      (∀ rest, register gen s op (.cons fieldName fieldTag t rest) = register gen s1 op1 rest)
      ∧ s1.SecuritySchemes
          = GoMap.insert s.SecuritySchemes
              ((parseTag (resolvedTag fieldName fieldTag) "name").getD "Authorization")
              { Type_ := "http",
                Scheme := (parseTag (resolvedTag fieldName fieldTag) "scheme").getD "bearer" }
      ∧ op1.Security = some (op.Security.getD [] ++ [requirement])
      ∧ requirement
          = GoMap.insert GoMap.empty
              ((parseTag (resolvedTag fieldName fieldTag) "name").getD "Authorization") []
      ∧ op1.Parameters = op.Parameters ∧ s1.Parameters = s.Parameters
      ∧ s1.Headers = s.Headers ∧ s1.Schemas = s.Schemas := by
  refine ⟨(setSecurityScheme s op
      ((parseTag (resolvedTag fieldName fieldTag) "name").getD "Authorization") "http"
      ((parseTag (resolvedTag fieldName fieldTag) "scheme").getD "bearer")).app,
    (setSecurityScheme s op
      ((parseTag (resolvedTag fieldName fieldTag) "name").getD "Authorization") "http"
      ((parseTag (resolvedTag fieldName fieldTag) "scheme").getD "bearer")).operation,
    _, fun rest => ?_, rfl, ?_, rfl, rfl, rfl, rfl, rfl⟩
  · rw [register_cons_leaf gen s op fieldName fieldTag t rest hk hleaf,
      registerField_isauth gen s op fieldName _ t headerKey authValue hpath hquery hheader hauth]
    rfl
  · simp only [setSecurityScheme]
    cases op.Security <;> rfl

/-- C5 at the field `Token string` tagged `header=Authorization;isauth`, registered alone on an
empty document: the scheme `Authorization` is `http`/`bearer`, the operation requires it, and
there is neither a header entry nor a parameter. -/
theorem isauth_header_security_witness :
    (register emptyGenerator App.empty Operation.empty tokenField).failure = none
    ∧ (register emptyGenerator App.empty Operation.empty tokenField).app.SecuritySchemes
        "Authorization" = some { Type_ := "http", Scheme := "bearer" }
    ∧ (register emptyGenerator App.empty Operation.empty tokenField).operation.Parameters = []
    ∧ ∃ (s1 : App) (op1 : Operation) (requirement : SecurityRequirement),
      (∀ rest, register emptyGenerator App.empty Operation.empty
          (.cons "Token" [("lite", "header=Authorization;isauth")] stringType rest)
            = register emptyGenerator s1 op1 rest)
      ∧ s1.SecuritySchemes
          = GoMap.insert App.empty.SecuritySchemes
              ((parseTag (resolvedTag "Token" [("lite", "header=Authorization;isauth")])
                "name").getD "Authorization")
              { Type_ := "http",
                Scheme := (parseTag (resolvedTag "Token" [("lite", "header=Authorization;isauth")])
                  "scheme").getD "bearer" }
      ∧ op1.Security = some (Operation.empty.Security.getD [] ++ [requirement])
      ∧ requirement
          = GoMap.insert GoMap.empty
              ((parseTag (resolvedTag "Token" [("lite", "header=Authorization;isauth")])
                "name").getD "Authorization") []
      ∧ op1.Parameters = Operation.empty.Parameters ∧ s1.Parameters = App.empty.Parameters
      ∧ s1.Headers = App.empty.Headers ∧ s1.Schemas = App.empty.Schemas :=
  ⟨by decide, by decide, by decide,
   isauth_header_security emptyGenerator App.empty Operation.empty "Token"
     [("lite", "header=Authorization;isauth")] stringType "Authorization" "" (by decide)
     (by decide) (by decide) (by decide) (by decide) (by decide)⟩

theorem unsupportedKind_of_kind (t : GoType)
    (h : t.Kind = .Chan ∨ t.Kind = .Func ∨ t.Kind = .UnsafePointer) :
    unsupportedKind (.zero t) = true := by
  rcases h with h | h | h <;> simp [unsupportedKind, Value.Kind, h]

theorem register_append_succeeded (gen : Generator) (pre rest : Fields) (s s1 : App)
    (op op1 : Operation)
    (h : register gen s op pre = { app := s1, operation := op1, failure := none }) :
    register gen s op (pre.append rest) = register gen s1 op1 rest := by
  rw [register_append, h]
  rfl

theorem register_append_failure (gen : Generator) (pre rest : Fields) (s : App)
    (op : Operation) (h : ∀ s1 op1, (register gen s1 op1 rest).failure ≠ none) :
    (register gen s op (pre.append rest)).failure ≠ none := by
  rw [register_append]
  rcases hr : register gen s op pre with ⟨s1, op1, fl⟩
  cases fl with
  | none => exact h s1 op1
  | some f => simp [Outcome.andThen]

theorem registerOpenAPIOperation_failure_of_register (gen : Generator) (T : GoType)
    (qn : String) (fields : Fields) (s : App) (method path c : String) (st : Int) (f : Failure)
    (h : (register gen s { Operation.empty with OperationID := method ++ path } fields).failure
      = some f) :
    (registerOpenAPIOperation gen T (.struct qn fields) s method path c st).failure = some f := by
  unfold registerOpenAPIOperation
  rcases hr : register gen s { Operation.empty with OperationID := method ++ path } fields
    with ⟨s1, op1, fl⟩
  rw [hr] at h
  simp only at h
  subst h
  simp only [hr]

/-- C7: a direct field of kind chan, func or unsafe pointer makes registration fail as an
unsupported field kind, whatever its tag. When `register` reaches the field (the fields before
it were registered without failure) it panics with `"not implemented"` and leaves the
application and the operation exactly as they were after the fields before it: no
parameter, schema or security entry is created for the field. In every case `register` and
`registerOpenAPIOperation` on such a shape do not succeed. -/
theorem unsupported_kind_fails (gen : Generator) (s : App) (op : Operation) (pre : Fields)
    (fieldName : String) (fieldTag : StructTag) (t : GoType) (rest : Fields)
    (hkind : t.Kind = .Chan ∨ t.Kind = .Func ∨ t.Kind = .UnsafePointer) :
    (∀ s1 op1, register gen s op pre = { app := s1, operation := op1, failure := none } →
        register gen s op (pre.append (.cons fieldName fieldTag t rest))
          = { app := s1, operation := op1, failure := some (.panic "not implemented") })
    ∧ (register gen s op (pre.append (.cons fieldName fieldTag t rest))).failure ≠ none
    ∧ (∀ T qn method path c st,
        (registerOpenAPIOperation gen T
          (.struct qn (pre.append (.cons fieldName fieldTag t rest))) s method path c
          st).failure ≠ none) := by
  have hu := unsupportedKind_of_kind t hkind
  have hfail : ∀ s1 op1,
      (register gen s1 op1 (.cons fieldName fieldTag t rest)).failure ≠ none := by
    intro s1 op1
    rw [register_cons_unsupported gen s1 op1 fieldName fieldTag t rest hu]
    simp
  refine ⟨fun s1 op1 h => ?_, register_append_failure gen pre _ s op hfail, ?_⟩
  · rw [register_append_succeeded gen pre _ s s1 op op1 h,
      register_cons_unsupported gen s1 op1 fieldName fieldTag t rest hu]
  · intro T qn method path c st
    rcases hf : (register gen s { Operation.empty with OperationID := method ++ path }
        (pre.append (.cons fieldName fieldTag t rest))).failure with _ | f
    · exact absurd hf (register_append_failure gen pre _ s _ hfail)
    · rw [registerOpenAPIOperation_failure_of_register gen T qn _ s method path c st f hf]
      simp

/-- C7 at the request shape `struct { ID uint64; Events Signal }` with both fields tagged: the
first field is registered, the channel field panics and adds nothing. -/
theorem unsupported_kind_fails_witness :
    (register emptyGenerator App.empty Operation.empty
        (idRequestFields.append
          (.cons "Events" [("lite", "query=events")] signalType .nil))).failure
      = some (.panic "not implemented")
    ∧ (register emptyGenerator App.empty Operation.empty
        (idRequestFields.append
          (.cons "Events" [("lite", "query=events")] signalType .nil))).app.Parameters "events"
      = none
    ∧ (register emptyGenerator App.empty Operation.empty
        (idRequestFields.append
          (.cons "Events" [("lite", "query=events")] signalType .nil))).failure ≠ none :=
  ⟨by decide, by decide,
   (unsupported_kind_fails emptyGenerator App.empty Operation.empty idRequestFields "Events"
      [("lite", "query=events")] signalType .nil (by decide)).2.1⟩
theorem unsupportedKind_zero (t : GoType) :
    unsupportedKind (.zero t) = !supportedKind t.Kind := by
  cases t with
  | basic n k => cases k <;> rfl
  | _ => rfl

theorem registerField_unknown (gen : Generator) (s : App) (op : Operation)
    (fieldName tag : String) (t : GoType)
    (h : ∀ loc ∈ locations, parseTag (if tag = "" then fieldName else tag) loc = none) :
    registerField gen s op fieldName tag t
      = { app := s, operation := op, failure := some (.error "unknown parameter type") } := by
  unfold registerField
  simp only [h "path" (by simp [locations]), h "query" (by simp [locations]),
    h "header" (by simp [locations]), h "cookie" (by simp [locations]),
    h "req" (by simp [locations])]

/-- C8, as stated, fails: the untagged field `Events Signal` (a channel) is a leaf field whose
tag falls back to the field name and names no location, yet `register` does not return the
error `"unknown parameter type"`: it panics with `"not implemented"`. -/
theorem unknown_location_chan_counterexample :
    (∀ loc ∈ locations, parseTag (resolvedTag "Events" []) loc = none)
    ∧ (register emptyGenerator App.empty Operation.empty signalRequestFields).failure
        = some (.panic "not implemented")
    ∧ (register emptyGenerator App.empty Operation.empty signalRequestFields).failure
        ≠ some (.error "unknown parameter type") := by
  decide

/-- C8, amended: for every leaf field (not an untagged struct) whose kind is none of uintptr,
chan, func and unsafe pointer and whose parsed tag names none of `path`, `query`, `header`,
`cookie` and `req` (the tag of an untagged field being its name), `register`, when it
reaches the field, returns the error `"unknown parameter type"` and changes nothing; and
`registerOpenAPIOperation` on the shape then fails with that error. -/
theorem unknown_location_error (gen : Generator) (s : App) (pre : Fields)
    (fieldName : String) (fieldTag : StructTag) (t : GoType) (rest : Fields)
    (hkind : supportedKind t.Kind = true)
    (hleaf : t.isStruct = false ∨ fieldTag.Get "lite" ≠ "")
    (hnone : ∀ loc ∈ locations, parseTag (resolvedTag fieldName fieldTag) loc = none) :
    (∀ op s1 op1, register gen s op pre = { app := s1, operation := op1, failure := none } →
        register gen s op (pre.append (.cons fieldName fieldTag t rest))
          = { app := s1, operation := op1, failure := some (.error "unknown parameter type") })
    ∧ (∀ T qn method path c st s1 op1,
        register gen s { Operation.empty with OperationID := method ++ path } pre
            = { app := s1, operation := op1, failure := none } →
        (registerOpenAPIOperation gen T
            (.struct qn (pre.append (.cons fieldName fieldTag t rest))) s method path c
            st).failure = some (.error "unknown parameter type")) := by
  have hu : unsupportedKind (.zero t) = false := by simp [unsupportedKind_zero, hkind]
  have hstep : ∀ op s1 op1,
      register gen s op pre = { app := s1, operation := op1, failure := none } →
      register gen s op (pre.append (.cons fieldName fieldTag t rest))
        = { app := s1, operation := op1, failure := some (.error "unknown parameter type") } := by
    intro op s1 op1 h
    rw [register_append_succeeded gen pre _ s s1 op op1 h,
      register_cons_leaf gen s1 op1 fieldName fieldTag t rest hu hleaf,
      registerField_unknown gen s1 op1 fieldName _ t hnone]
    rfl
  refine ⟨hstep, ?_⟩
  intro T qn method path c st s1 op1 h
  apply registerOpenAPIOperation_failure_of_register
  rw [hstep _ s1 op1 h]

/-- The amended C8 at the request shape `struct { ID uint64; Extra string }` with `ID` tagged
`path=id` and `Extra` untagged. -/
theorem unknown_location_error_witness :
    (∀ loc ∈ locations, parseTag (resolvedTag "Extra" []) loc = none)
    ∧ (registerOpenAPIOperation emptyGenerator pairType
        (.struct "Req" (idRequestFields.append (.cons "Extra" [] stringType .nil))) App.empty
        "GET" "/pairs/:id" "application/json" 200).failure
        = some (.error "unknown parameter type") :=
  ⟨by decide,
   (unknown_location_error emptyGenerator App.empty idRequestFields "Extra" [] stringType .nil
      (by decide) (by decide) (by decide)).2 pairType "Req" "GET" "/pairs/:id"
      "application/json" 200 _ _ (Outcome.eq_of_succeeded _ (by decide))⟩

/-- C9: untagged nested structs are flattened. For a struct-kind field `F` with no `lite` tag,
anywhere among the direct fields of a shape, `register` yields, from any state, the very
outcome (application, operation and failure, hence the same parameter references in the same
order, request body, security requirements and document components) that it yields on the
shape with `F` replaced in place by the fields of `F`; so does `registerOpenAPIOperation`.
`F` itself contributes nothing. -/
theorem untagged_struct_flattened (gen : Generator) (s : App) (op : Operation) (pre : Fields)
    (fieldName : String) (fieldTag : StructTag) (structName : String) (fields rest : Fields)
    (h : fieldTag.Get "lite" = "") :
    register gen s op (pre.append (.cons fieldName fieldTag (.struct structName fields) rest))
      = register gen s op (pre.append (fields.append rest))
    ∧ (∀ T qn method path c st,
        registerOpenAPIOperation gen T
            (.struct qn (pre.append (.cons fieldName fieldTag (.struct structName fields) rest)))
            s method path c st
          = registerOpenAPIOperation gen T (.struct qn (pre.append (fields.append rest)))
            s method path c st) := by
  have hreg : ∀ s op,
      register gen s op (pre.append (.cons fieldName fieldTag (.struct structName fields) rest))
        = register gen s op (pre.append (fields.append rest)) := by
    intro s op
    rw [register_append, register_append gen pre (fields.append rest)]
    congr 1
    funext s1 op1
    rw [register_cons_struct gen s1 op1 fieldName fieldTag structName fields rest h,
      register_append]
  refine ⟨hreg s op, ?_⟩
  intro T qn method path c st
  unfold registerOpenAPIOperation
  simp only [hreg]

/-- C9 at the shape `struct { Params struct { ID uint64 }; Extra string }` with `Params`
untagged: it registers as `struct { ID uint64; Extra string }` does. -/
theorem untagged_struct_flattened_witness :
    register emptyGenerator App.empty Operation.empty
        (Fields.nil.append (.cons "Params" [] (.struct "Params" idRequestFields)
          (.cons "Extra" [("lite", "query=extra")] stringType .nil)))
      = register emptyGenerator App.empty Operation.empty
          (Fields.nil.append (idRequestFields.append
            (.cons "Extra" [("lite", "query=extra")] stringType .nil))) :=
  (untagged_struct_flattened emptyGenerator App.empty Operation.empty .nil "Params" []
    "Params" idRequestFields (.cons "Extra" [("lite", "query=extra")] stringType .nil)
    (by decide)).1
theorem register_single_leaf (gen : Generator) (s : App) (op : Operation) (n : String)
    (tag : StructTag) (t : GoType) (hk : unsupportedKind (.zero t) = false)
    (h : t.isStruct = false ∨ tag.Get "lite" ≠ "") :
    register gen s op (.cons n tag t .nil) = registerField gen s op n (tag.Get "lite") t := by
  rw [register_cons_leaf gen s op n tag t .nil hk h]
  have : (fun s1 op1 => register gen s1 op1 .nil)
      = (fun s1 op1 => ({ app := s1, operation := op1, failure := none } : Outcome)) := by
    funext s1 op1
    exact register_nil gen s1 op1
  rw [this, Outcome.andThen_pure]

theorem setParamSchema_stored (gen : Generator) (s : App) (op : Operation) (key : String)
    (p : Parameter) (r : Bool) (t : GoType) (hgen : ∀ v e, gen v ≠ .error e) :
    (setParamSchema gen s op key p r t).failure = none
    ∧ (setParamSchema gen s op key p r t).app.Parameters key
        = some (ParameterRef.mk "" (some { p with
            Schema := some (NewSchemaRef ("#/components/schemas/" ++ key) Schema.empty),
            Required := r })) := by
  unfold setParamSchema
  simp only
  rcases hS : s.Schemas key with _ | v
  · obtain ⟨s1, x, hg, hd⟩ := NewSchemaRefForValue_ok gen s (zeroInterface t) hgen
    simp [hg, GoMap.insert]
  · simp [GoMap.insert]

theorem setHeaderScheme_stored (gen : Generator) (s : App) (op : Operation) (tag : String)
    (p : Parameter) (hgen : ∀ v e, gen v ≠ .error e) :
    (setHeaderScheme gen s op tag p).failure = none
    ∧ (setHeaderScheme gen s op tag p).app.Headers tag = some p := by
  unfold setHeaderScheme
  simp only
  rcases hS : s.Schemas tag with _ | v
  · obtain ⟨s1, x, hg, hd⟩ :=
      NewSchemaRefForValue_ok gen s (some (.ptr "" (.basic "string" .String))) hgen
    simp [hg, GoMap.insert, hd.2.2.1]
  · simp [GoMap.insert]

/-- C10: the parameter `register` generates for a field bound to path, query, header or cookie
has `Required = true` exactly when the field's declared type is not of pointer kind. For a
leaf field of a supported kind, registered from any state with a generator that does not
fail: bound to path, query or cookie with key `key`, the parameter stored in
`Components.Parameters` under `key` is in that location and is required iff the type is not
a pointer; bound to header without `isauth`, the parameter stored in `Components.Headers` is
named `key` and is required iff the type is not a pointer. The `else if` chain of `register`
fixes which location a tag binds to. -/
theorem parameter_required_iff_not_pointer (gen : Generator) (s : App) (op : Operation)
    (fieldName : String) (fieldTag : StructTag) (t : GoType) (key : String)
    (hkind : supportedKind t.Kind = true)
    (hleaf : t.isStruct = false ∨ fieldTag.Get "lite" ≠ "")
    (hgen : ∀ v e, gen v ≠ .error e) :
    (parseTag (resolvedTag fieldName fieldTag) "path" = some key →
      (register gen s op (.cons fieldName fieldTag t .nil)).failure = none
      ∧ ∃ p, (register gen s op (.cons fieldName fieldTag t .nil)).app.Parameters key
            = some (ParameterRef.mk "" (some p))
          ∧ p.Name = key ∧ p.In = "path" ∧ (p.Required = true ↔ t.Kind ≠ .Ptr))
    ∧ (parseTag (resolvedTag fieldName fieldTag) "path" = none →
      parseTag (resolvedTag fieldName fieldTag) "query" = some key →
      (register gen s op (.cons fieldName fieldTag t .nil)).failure = none
      ∧ ∃ p, (register gen s op (.cons fieldName fieldTag t .nil)).app.Parameters key
            = some (ParameterRef.mk "" (some p))
          ∧ p.Name = key ∧ p.In = "query" ∧ (p.Required = true ↔ t.Kind ≠ .Ptr))
    ∧ (parseTag (resolvedTag fieldName fieldTag) "path" = none →
      parseTag (resolvedTag fieldName fieldTag) "query" = none →
      parseTag (resolvedTag fieldName fieldTag) "header" = none →
      parseTag (resolvedTag fieldName fieldTag) "cookie" = some key →
      (register gen s op (.cons fieldName fieldTag t .nil)).failure = none
      ∧ ∃ p, (register gen s op (.cons fieldName fieldTag t .nil)).app.Parameters key
            = some (ParameterRef.mk "" (some p))
          ∧ p.Name = key ∧ p.In = "cookie" ∧ (p.Required = true ↔ t.Kind ≠ .Ptr))
    ∧ (parseTag (resolvedTag fieldName fieldTag) "path" = none →
      parseTag (resolvedTag fieldName fieldTag) "query" = none →
      parseTag (resolvedTag fieldName fieldTag) "header" = some key →
      parseTag (resolvedTag fieldName fieldTag) "isauth" = none →
      (register gen s op (.cons fieldName fieldTag t .nil)).failure = none
      ∧ ∃ p, (register gen s op (.cons fieldName fieldTag t .nil)).app.Headers
              (resolvedTag fieldName fieldTag) = some p
          ∧ p.Name = key ∧ p.In = "header" ∧ (p.Required = true ↔ t.Kind ≠ .Ptr)) := by
  have hu : unsupportedKind (.zero t) = false := by simp [unsupportedKind_zero, hkind]
  rw [register_single_leaf gen s op fieldName fieldTag t hu hleaf]
  unfold resolvedTag
  refine ⟨fun h1 => ?_, fun h1 h2 => ?_, fun h1 h2 h3 h4 => ?_, fun h1 h2 h3 h4 => ?_⟩
  · unfold registerField
    simp only [h1]
    obtain ⟨hf, hp⟩ := setParamSchema_stored gen s op key (NewPathParameter key)
      (decide (t.Kind ≠ .Ptr)) t hgen
    exact ⟨hf, _, hp, rfl, rfl, by simp⟩
  · unfold registerField
    simp only [h1, h2]
    obtain ⟨hf, hp⟩ := setParamSchema_stored gen s op key (NewQueryParameter key)
      (decide (t.Kind ≠ .Ptr)) t hgen
    exact ⟨hf, _, hp, rfl, rfl, by simp⟩
  · unfold registerField
    simp only [h1, h2, h3, h4]
    obtain ⟨hf, hp⟩ := setParamSchema_stored gen s op key (NewCookieParameter key)
      (decide (t.Kind ≠ .Ptr)) t hgen
    exact ⟨hf, _, hp, rfl, rfl, by simp⟩
  · unfold registerField
    simp only [h1, h2, h3, h4, Option.isSome_none]
    obtain ⟨hf, hp⟩ := setHeaderScheme_stored gen s op
      (if fieldTag.Get "lite" = "" then fieldName else fieldTag.Get "lite")
      { NewHeaderParameter key with Required := decide (t.Kind ≠ .Ptr) } hgen
    exact ⟨by simpa using hf, _, by simpa using hp, rfl, rfl, by simp⟩

/-- C10 at the field `ID *uint64` tagged `path=id`: the path parameter `id` is stored as not
required. -/
theorem parameter_required_iff_not_pointer_witness :
    (register emptyGenerator App.empty Operation.empty optionalIdRequestFields).app.Parameters
        "id"
      = some (ParameterRef.mk "" (some
          { Name := "id", In := "path", Required := false,
            Schema := some (NewSchemaRef "#/components/schemas/id" Schema.empty) }))
    ∧ ((register emptyGenerator App.empty Operation.empty
          (.cons "ID" [("lite", "path=id")] (.ptr "" (.basic "uint64" .Uint64)) .nil)).failure
        = none
      ∧ ∃ p, (register emptyGenerator App.empty Operation.empty
            (.cons "ID" [("lite", "path=id")] (.ptr "" (.basic "uint64" .Uint64))
              .nil)).app.Parameters "id"
            = some (ParameterRef.mk "" (some p))
          ∧ p.Name = "id" ∧ p.In = "path"
          ∧ (p.Required = true ↔ (GoType.ptr "" (.basic "uint64" .Uint64)).Kind ≠ .Ptr)) :=
  ⟨by decide,
   (parameter_required_iff_not_pointer emptyGenerator App.empty Operation.empty "ID"
      [("lite", "path=id")] (.ptr "" (.basic "uint64" .Uint64)) "id" (by decide) (by decide)
      (by intro v e h; cases h)).1 (by decide)⟩

/-- C6, as stated, fails. The request shape
`struct { P *Inner; Q *[]string; R *map[string]string }`, tagged `query=p`, `query=q` and
`cookie=r`, has direct fields of type pointer-to-struct, pointer-to-slice and pointer-to-map,
and both `register` on its zero value and `registerOpenAPIOperation` complete without a
failure; the three fields are stored as parameters that are not required. -/
theorem pointer_field_counterexample :
    (register emptyGenerator App.empty Operation.empty pointerKindsRequestFields).failure = none
    ∧ (registerOpenAPIOperation emptyGenerator pairType (.struct "Req" pointerKindsRequestFields)
        App.empty "GET" "/pairs" "application/json" 200).failure = none
    ∧ (registerOpenAPIOperation emptyGenerator pairType (.struct "Req" pointerKindsRequestFields)
        App.empty "GET" "/pairs" "application/json" 200).app.Parameters "p"
        = some (ParameterRef.mk "" (some
            { Name := "p", In := "query", Required := false,
              Schema := some (NewSchemaRef "#/components/schemas/p" Schema.empty) }))
    ∧ (registerOpenAPIOperation emptyGenerator pairType (.struct "Req" pointerKindsRequestFields)
        App.empty "GET" "/pairs" "application/json" 200).app.Parameters "q"
        = some (ParameterRef.mk "" (some
            { Name := "q", In := "query", Required := false,
              Schema := some (NewSchemaRef "#/components/schemas/q" Schema.empty) }))
    ∧ (registerOpenAPIOperation emptyGenerator pairType (.struct "Req" pointerKindsRequestFields)
        App.empty "GET" "/pairs" "application/json" 200).app.Parameters "r"
        = some (ParameterRef.mk "" (some
            { Name := "r", In := "cookie", Required := false,
              Schema := some (NewSchemaRef "#/components/schemas/r" Schema.empty) })) := by
  decide

/-- C6, amended: a direct field of type pointer-to-struct, pointer-to-slice or pointer-to-map
does not make registration fail as an unsupported field kind. In the zero value of the
request shape the field is a nil pointer, whose `Elem()` is of kind `Invalid`, so the kind
switch of `register` passes it (it reaches `panic("not implemented")` only for a pointer that
is not nil). The field is then registered by its tag like every other field and `register`
goes on with the fields after it: bound to path, query or cookie with key `k`, with a
generator that does not fail, the field registers without a failure and the parameter stored
in `Components.Parameters` under `k` is named `k` and is not required. -/
theorem pointer_field_registered (gen : Generator) (s : App) (op : Operation)
    (fieldName : String) (fieldTag : StructTag) (n : String) (e : GoType) (rest : Fields)
    (k : String)
    (helem : e.Kind = .Struct ∨ e.Kind = .Slice ∨ e.Kind = .Map)
    (hgen : ∀ v err, gen v ≠ .error err)
    (hloc : parseTag (resolvedTag fieldName fieldTag) "path" = some k
      ∨ (parseTag (resolvedTag fieldName fieldTag) "path" = none
        ∧ parseTag (resolvedTag fieldName fieldTag) "query" = some k)
      ∨ (parseTag (resolvedTag fieldName fieldTag) "path" = none
        ∧ parseTag (resolvedTag fieldName fieldTag) "query" = none
        ∧ parseTag (resolvedTag fieldName fieldTag) "header" = none
        ∧ parseTag (resolvedTag fieldName fieldTag) "cookie" = some k)) :
    unsupportedKind (.zero (.ptr n e)) = false
    ∧ unsupportedKind (.pointer (.ptr n e) (.zero e)) = true
    ∧ register gen s op (.cons fieldName fieldTag (.ptr n e) rest)
        = (register gen s op (.cons fieldName fieldTag (.ptr n e) .nil)).andThen
            (fun s1 op1 => register gen s1 op1 rest)
    ∧ (register gen s op (.cons fieldName fieldTag (.ptr n e) .nil)).failure = none
    ∧ ∃ p, (register gen s op (.cons fieldName fieldTag (.ptr n e) .nil)).app.Parameters k
          = some (ParameterRef.mk "" (some p))
        ∧ p.Name = k ∧ p.Required = false := by
  have hu : unsupportedKind (.zero (.ptr n e)) = false := rfl
  have hleaf : (GoType.ptr n e).isStruct = false ∨ fieldTag.Get "lite" ≠ "" := Or.inl rfl
  refine ⟨hu, ?_, ?_, ?_⟩
  · have hk : (Value.pointer (.ptr n e) (.zero e)).Elem.Kind = e.Kind := rfl
    unfold unsupportedKind
    rw [hk]
    rcases helem with h | h | h <;> rw [h] <;> rfl
  · rw [register_cons_leaf gen s op fieldName fieldTag _ rest hu hleaf,
      register_single_leaf gen s op fieldName fieldTag _ hu hleaf]
  · rw [register_single_leaf gen s op fieldName fieldTag _ hu hleaf]
    unfold resolvedTag at hloc
    rcases hloc with h1 | ⟨h1, h2⟩ | ⟨h1, h2, h3, h4⟩
    · unfold registerField
      simp only [h1]
      obtain ⟨hf, hp⟩ := setParamSchema_stored gen s op k (NewPathParameter k)
        (decide ((GoType.ptr n e).Kind ≠ .Ptr)) (.ptr n e) hgen
      exact ⟨hf, _, hp, rfl, by simp [GoType.Kind]⟩
    · unfold registerField
      simp only [h1, h2]
      obtain ⟨hf, hp⟩ := setParamSchema_stored gen s op k (NewQueryParameter k)
        (decide ((GoType.ptr n e).Kind ≠ .Ptr)) (.ptr n e) hgen
      exact ⟨hf, _, hp, rfl, by simp [GoType.Kind]⟩
    · unfold registerField
      simp only [h1, h2, h3, h4]
      obtain ⟨hf, hp⟩ := setParamSchema_stored gen s op k (NewCookieParameter k)
        (decide ((GoType.ptr n e).Kind ≠ .Ptr)) (.ptr n e) hgen
      exact ⟨hf, _, hp, rfl, by simp [GoType.Kind]⟩

/-- The amended C6 at the field `P *Inner` tagged `query=p`, registered alone on an empty
document: the kind switch passes the nil pointer and the query parameter `p` is stored as not
required. -/
theorem pointer_field_registered_witness :
    unsupportedKind (.zero (.ptr "" innerType)) = false
    ∧ (register emptyGenerator App.empty Operation.empty pointerRequestFields).failure = none
    ∧ ∃ p, (register emptyGenerator App.empty Operation.empty
          pointerRequestFields).app.Parameters "p" = some (ParameterRef.mk "" (some p))
        ∧ p.Name = "p" ∧ p.Required = false :=
  have h := pointer_field_registered emptyGenerator App.empty Operation.empty "P"
    [("lite", "query=p")] "" innerType .nil "p" (Or.inl rfl) (by intro v err h; cases h)
    (Or.inr (Or.inl ⟨by decide, by decide⟩))
  ⟨h.1, h.2.2.2.1, h.2.2.2.2⟩

theorem GoMap.insert_same {α : Type} (m : GoMap α) (k : String) (v : α) :
    GoMap.insert m k v k = some v := by
  simp [GoMap.insert]

theorem GoMap.insert_other {α : Type} (m : GoMap α) (k k1 : String) (v : α) (h : k1 ≠ k) :
    GoMap.insert m k v k1 = m k1 := by
  simp [GoMap.insert, h]

theorem setParamSchema_effect (gen : Generator) (s : App) (op : Operation) (key : String)
    (p : Parameter) (r : Bool) (t : GoType) (hgen : ∀ v e, gen v ≠ .error e) :
    (setParamSchema gen s op key p r t).failure = none
    ∧ (setParamSchema gen s op key p r t).app.Parameters
        = GoMap.insert s.Parameters key (ParameterRef.mk "" (some { p with
            Schema := some (NewSchemaRef ("#/components/schemas/" ++ key) Schema.empty),
            Required := r }))
    ∧ (setParamSchema gen s op key p r t).operation.Parameters
        = op.Parameters ++ [ParameterRef.mk ("#/components/parameters/" ++ key) none]
    ∧ ((setParamSchema gen s op key p r t).app.Schemas key).isSome = true := by
  unfold setParamSchema
  simp only
  rcases hS : s.Schemas key with _ | v
  · obtain ⟨s1, x, hg, hd⟩ := NewSchemaRefForValue_ok gen s (zeroInterface t) hgen
    simp [hg, GoMap.insert, hd.2.1]
  · simp [hS]

/-- C11: a leaf field of a supported kind that `register` binds to path, query or cookie with
tag key `k` (the `else if` chain tests path, then query, then header, then cookie), registered
from any state with a generator that does not fail: the parameter is stored in
`Components.Parameters` under `k` and under no other key, it is named `k` and its schema
reference is `#/components/schemas/k`; the reference `#/components/parameters/k` is appended
to the parameters of the operation; and `Components.Schemas` holds an entry named `k`. -/
theorem parameter_component_key (gen : Generator) (s : App) (op : Operation)
    (fieldName : String) (fieldTag : StructTag) (t : GoType) (k : String)
    (hkind : supportedKind t.Kind = true)
    (hleaf : t.isStruct = false ∨ fieldTag.Get "lite" ≠ "")
    (hgen : ∀ v e, gen v ≠ .error e)
    (hloc : parseTag (resolvedTag fieldName fieldTag) "path" = some k
      ∨ (parseTag (resolvedTag fieldName fieldTag) "path" = none
        ∧ parseTag (resolvedTag fieldName fieldTag) "query" = some k)
      ∨ (parseTag (resolvedTag fieldName fieldTag) "path" = none
        ∧ parseTag (resolvedTag fieldName fieldTag) "query" = none
        ∧ parseTag (resolvedTag fieldName fieldTag) "header" = none
        ∧ parseTag (resolvedTag fieldName fieldTag) "cookie" = some k)) :
    (register gen s op (.cons fieldName fieldTag t .nil)).failure = none
    ∧ (∃ p, (register gen s op (.cons fieldName fieldTag t .nil)).app.Parameters k
          = some (ParameterRef.mk "" (some p))
        ∧ p.Name = k
        ∧ p.Schema = some (NewSchemaRef ("#/components/schemas/" ++ k) Schema.empty))
    ∧ (∀ k1, k1 ≠ k →
        (register gen s op (.cons fieldName fieldTag t .nil)).app.Parameters k1
          = s.Parameters k1)
    ∧ (register gen s op (.cons fieldName fieldTag t .nil)).operation.Parameters
        = op.Parameters ++ [ParameterRef.mk ("#/components/parameters/" ++ k) none]
    ∧ ((register gen s op (.cons fieldName fieldTag t .nil)).app.Schemas k).isSome = true := by
  have hu : unsupportedKind (.zero t) = false := by simp [unsupportedKind_zero, hkind]
  rw [register_single_leaf gen s op fieldName fieldTag t hu hleaf]
  unfold resolvedTag at hloc
  rcases hloc with h1 | ⟨h1, h2⟩ | ⟨h1, h2, h3, h4⟩
  · unfold registerField
    simp only [h1]
    obtain ⟨hf, hp, ho, hs⟩ := setParamSchema_effect gen s op k (NewPathParameter k)
      (decide (t.Kind ≠ .Ptr)) t hgen
    refine ⟨hf, ⟨_, by rw [hp, GoMap.insert_same], rfl, rfl⟩, ?_, ho, hs⟩
    intro k1 hk1
    rw [hp, GoMap.insert_other _ _ _ _ hk1]
  · unfold registerField
    simp only [h1, h2]
    obtain ⟨hf, hp, ho, hs⟩ := setParamSchema_effect gen s op k (NewQueryParameter k)
      (decide (t.Kind ≠ .Ptr)) t hgen
    refine ⟨hf, ⟨_, by rw [hp, GoMap.insert_same], rfl, rfl⟩, ?_, ho, hs⟩
    intro k1 hk1
    rw [hp, GoMap.insert_other _ _ _ _ hk1]
  · unfold registerField
    simp only [h1, h2, h3, h4]
    obtain ⟨hf, hp, ho, hs⟩ := setParamSchema_effect gen s op k (NewCookieParameter k)
      (decide (t.Kind ≠ .Ptr)) t hgen
    refine ⟨hf, ⟨_, by rw [hp, GoMap.insert_same], rfl, rfl⟩, ?_, ho, hs⟩
    intro k1 hk1
    rw [hp, GoMap.insert_other _ _ _ _ hk1]

/-- C11 at the field `Filter string` tagged `query=filter`, registered on an empty document. -/
theorem parameter_component_key_witness :
    (register emptyGenerator App.empty Operation.empty filterRequestFields).operation.Parameters
        = [ParameterRef.mk "#/components/parameters/filter" none]
    ∧ (register emptyGenerator App.empty Operation.empty
          (.cons "Filter" [("lite", "query=filter")] stringType .nil)).failure = none
    ∧ (∃ p, (register emptyGenerator App.empty Operation.empty
            (.cons "Filter" [("lite", "query=filter")] stringType .nil)).app.Parameters "filter"
          = some (ParameterRef.mk "" (some p))
        ∧ p.Name = "filter"
        ∧ p.Schema = some (NewSchemaRef ("#/components/schemas/" ++ "filter") Schema.empty)) :=
  ⟨by decide,
   (parameter_component_key emptyGenerator App.empty Operation.empty "Filter"
      [("lite", "query=filter")] stringType "filter" (by decide) (by decide)
      (by intro v e h; cases h) (Or.inr (Or.inl (by decide)))).1,
   (parameter_component_key emptyGenerator App.empty Operation.empty "Filter"
      [("lite", "query=filter")] stringType "filter" (by decide) (by decide)
      (by intro v e h; cases h) (Or.inr (Or.inl (by decide)))).2.1⟩

/-- C12, the code at the failing input `struct { ID uint64; tagged header=id }`: `register` hands
`setHeaderScheme` the whole tag, so the header is stored in `Components.Headers` under
`header=id` and not under the tag key `id`, and the reference appended to the operation is
`#/components/parameters/header=id`. -/
theorem header_component_keyed_by_whole_tag :
    parseTag "header=id" "header" = some "id"
    ∧ (register emptyGenerator App.empty Operation.empty headerRequestFields).failure = none
    ∧ (register emptyGenerator App.empty Operation.empty headerRequestFields).app.Headers
        "header=id"
        = some { Name := "id", In := "header", Required := true, Schema := none }
    ∧ (register emptyGenerator App.empty Operation.empty headerRequestFields).app.Headers "id"
        = none
    ∧ (register emptyGenerator App.empty Operation.empty
        headerRequestFields).operation.Parameters
        = [ParameterRef.mk "#/components/parameters/header=id" none] := by
  decide

theorem registerField_req_other (gen : Generator) (s : App) (op : Operation)
    (fieldName tag : String) (t : GoType) (reqKey : String)
    (hpath : parseTag (if tag = "" then fieldName else tag) "path" = none)
    (hquery : parseTag (if tag = "" then fieldName else tag) "query" = none)
    (hheader : parseTag (if tag = "" then fieldName else tag) "header" = none)
    (hcookie : parseTag (if tag = "" then fieldName else tag) "cookie" = none)
    (hreq : parseTag (if tag = "" then fieldName else tag) "req" = some reqKey)
    (hne : reqKey ≠ "body") :
    registerField gen s op fieldName tag t
      = { app := s, operation := op, failure := none } := by
  unfold registerField
  simp only [hpath, hquery, hheader, hcookie, hreq, hne, if_false]

/-- C19: a leaf field of a supported kind whose parsed tag has `req = k` with `k ≠ "body"` (and
none of `path`, `query`, `header` and `cookie`, which are tested first) is silently accepted:
`register` goes on to the following fields from exactly the application and operation it
had before the field, and on the field alone it returns no error and leaves both as they
were. -/
theorem req_other_key_ignored (gen : Generator) (s : App) (op : Operation)
    (fieldName : String) (fieldTag : StructTag) (t : GoType) (reqKey : String)
    (hkind : supportedKind t.Kind = true)
    (hleaf : t.isStruct = false ∨ fieldTag.Get "lite" ≠ "")
    (hpath : parseTag (resolvedTag fieldName fieldTag) "path" = none)
    (hquery : parseTag (resolvedTag fieldName fieldTag) "query" = none)
    (hheader : parseTag (resolvedTag fieldName fieldTag) "header" = none)
    (hcookie : parseTag (resolvedTag fieldName fieldTag) "cookie" = none)
    (hreq : parseTag (resolvedTag fieldName fieldTag) "req" = some reqKey)
    (hne : reqKey ≠ "body") :
    (∀ rest, register gen s op (.cons fieldName fieldTag t rest) = register gen s op rest)
    ∧ register gen s op (.cons fieldName fieldTag t .nil)
        = { app := s, operation := op, failure := none } := by
  have hu : unsupportedKind (.zero t) = false := by simp [unsupportedKind_zero, hkind]
  have hstep : ∀ rest, register gen s op (.cons fieldName fieldTag t rest)
      = register gen s op rest := by
    intro rest
    rw [register_cons_leaf gen s op fieldName fieldTag t rest hu hleaf,
      registerField_req_other gen s op fieldName _ t reqKey hpath hquery hheader hcookie hreq
        hne]
    rfl
  exact ⟨hstep, by rw [hstep, register_nil]⟩

/-- C19 at the field `Raw string` tagged `req=raw`. -/
theorem req_other_key_ignored_witness :
    parseTag (resolvedTag "Raw" [("lite", "req=raw")]) "req" = some "raw"
    ∧ register emptyGenerator seededApp Operation.empty
        (.cons "Raw" [("lite", "req=raw")] stringType .nil)
        = { app := seededApp, operation := Operation.empty, failure := none } :=
  ⟨by decide,
   (req_other_key_ignored emptyGenerator seededApp Operation.empty "Raw" [("lite", "req=raw")]
      stringType "raw" (by decide) (by decide) (by decide) (by decide) (by decide) (by decide)
      (by decide) (by decide)).2⟩

theorem setParamSchema_operationID (gen : Generator) (s : App) (op : Operation) (tag : String)
    (p : Parameter) (r : Bool) (t : GoType) :
    (setParamSchema gen s op tag p r t).operation.OperationID = op.OperationID := by
  unfold setParamSchema
  simp only
  split
  · rfl
  · split <;> rfl

theorem setHeaderScheme_operationID (gen : Generator) (s : App) (op : Operation) (tag : String)
    (p : Parameter) : (setHeaderScheme gen s op tag p).operation.OperationID = op.OperationID := by
  unfold setHeaderScheme
  simp only
  split
  · rfl
  · split <;> rfl

theorem registerBody_operationID (gen : Generator) (s : App) (op : Operation) (t : GoType) :
    (registerBody gen s op t).operation.OperationID = op.OperationID := by
  unfold registerBody
  simp only
  rcases hS : s.Schemas t.Name with _ | v
  · rcases hg : NewSchemaRefForValue gen s (zeroInterface t) with ⟨s1, e | sch⟩
    · rfl
    · cases t <;> simp only
      split <;> rfl
  · rfl

theorem registerField_operationID (gen : Generator) (s : App) (op : Operation) (n tag : String)
    (t : GoType) : (registerField gen s op n tag t).operation.OperationID = op.OperationID := by
  unfold registerField
  simp only
  generalize (if tag = "" then n else tag) = tg
  split
  · exact setParamSchema_operationID _ _ _ _ _ _ _
  · split
    · exact setParamSchema_operationID _ _ _ _ _ _ _
    · split
      · split
        · rfl
        · exact setHeaderScheme_operationID _ _ _ _ _
      · split
        · exact setParamSchema_operationID _ _ _ _ _ _ _
        · split
          · split
            · exact registerBody_operationID _ _ _ _
            · rfl
          · rfl

theorem andThen_operationID (op : Operation) (o : Outcome) (f : App → Operation → Outcome)
    (h1 : o.operation.OperationID = op.OperationID)
    (h2 : ∀ s1 op1, (f s1 op1).operation.OperationID = op1.OperationID) :
    (o.andThen f).operation.OperationID = op.OperationID := by
  obtain ⟨s1, op1, fl⟩ := o
  cases fl with
  | none => exact (h2 s1 op1).trans h1
  | some f => exact h1

theorem register_operationID (gen : Generator) (fs : Fields) :
    ∀ (s : App) (op : Operation),
      (register gen s op fs).operation.OperationID = op.OperationID := by
  induction fs using Fields.induction_nested with
  | hnil => intro s op; rw [register_nil]
  | hstruct n tag sn fs rest ihf ihr =>
    intro s op
    by_cases h : tag.Get "lite" = ""
    · rw [register_cons_struct gen s op n tag sn fs rest h]
      exact andThen_operationID op _ _ (ihf s op) ihr
    · rw [register_cons_leaf gen s op n tag _ rest (by rfl) (Or.inr h)]
      exact andThen_operationID op _ _ (registerField_operationID _ _ _ _ _ _) ihr
  | hleaf n tag t rest ht ihr =>
    intro s op
    by_cases hk : unsupportedKind (.zero t) = true
    · rw [register_cons_unsupported gen s op n tag t rest hk]
    · rw [register_cons_leaf gen s op n tag t rest (by simpa using hk) (Or.inl ht)]
      exact andThen_operationID op _ _ (registerField_operationID _ _ _ _ _ _) ihr

theorem foldl_AddResponse_operationID (responses : List (Int × Response)) :
    ∀ op : Operation,
      (responses.foldl (fun op r => AddResponse op r.1 r.2) op).OperationID = op.OperationID := by
  induction responses with
  | nil => intro op; rfl
  | cons r rest ih => intro op; simp only [List.foldl_cons]; rw [ih]; rfl

theorem completedOperation_operationID (op : Operation) (c : String) (st : Int) (tag : String)
    (rs : Option Addr) (responses : List (Int × Response)) :
    (completedOperation op c st tag rs responses).OperationID = op.OperationID := by
  simp only [completedOperation]
  rw [foldl_AddResponse_operationID]
  rfl

theorem completedOperation_responses (op : Operation) (c : String) (st : Int) (tag : String)
    (rs : Option Addr) (responses : List (Int × Response))
    (hcodes : responses.map Prod.fst = errorCatalogue.map Prod.fst) :
    ∃ R, (completedOperation op c st tag rs responses).Responses = some R
      ∧ R .default = none
      ∧ (plainStatus st = true → R (.status st) = some (successResponse c tag rs)) := by
  obtain ⟨R1, hR1, _, _⟩ := AddResponse_responses op st (successResponse c tag rs)
  obtain ⟨R, hR, _⟩ := foldl_AddResponse_responses responses _ R1 hR1
  refine ⟨Responses.Delete R .default, by simp [completedOperation, hR],
    by simp [Responses.Delete], ?_⟩
  intro hst
  obtain ⟨R2, hR2, hval⟩ := completedOperation_success op c st tag rs responses hcodes hst
  have : (completedOperation op c st tag rs responses).Responses
      = some (Responses.Delete R .default) := by simp [completedOperation, hR]
  rw [this] at hR2
  cases hR2
  exact hval

/-- What a successful registration returns and adds to the document. -/
theorem registerOpenAPIOperation_operation (gen : Generator) (T Q : GoType) (s : App)
    (method path c : String) (st : Int)
    (h : (registerOpenAPIOperation gen T Q s method path c st).failure = none) :
    ∃ tag rs op item R,
      tagFromType (zeroInterface T) = .ok tag
      ∧ (registerOpenAPIOperation gen T Q s method path c st).app.Schemas tag = some rs
      ∧ (registerOpenAPIOperation gen T Q s method path c st).operation = some op
      ∧ (registerOpenAPIOperation gen T Q s method path c st).app.Paths (parseRoutePath path)
          = some item
      ∧ item method = some op
      ∧ op.OperationID = method ++ path
      ∧ op.Responses = some R
      ∧ R .default = none
      ∧ (plainStatus st = true → R (.status st) = some (successResponse c tag rs)) := by
  obtain ⟨qn, qfields, s1, op1, tag, rs, s2, s3, responses, _, hreg, ht, hrs, hc, heq⟩ :=
    registerOpenAPIOperation_succeeded gen T Q s method path c st h
  have h2 : s2.Schemas tag = some rs := responseSchemaFor_ok gen s1 s2 c tag T rs hrs
  have h3 : s3.Schemas tag = some rs := by
    have := createDefaultErrorResponses_kept gen s2 tag rs h2
    rwa [hc] at this
  obtain ⟨R, hR, hdef, hst⟩ := completedOperation_responses op1 c st tag rs responses
    (createDefaultErrorResponses_ok gen s2 s3 responses hc)
  have hid : op1.OperationID = method ++ path := by
    have := register_operationID gen qfields s
      { Operation.empty with OperationID := method ++ path }
    rw [hreg] at this
    exact this
  refine ⟨tag, rs, completedOperation op1 c st tag rs responses,
    GoMap.insert
      (match s3.Paths (parseRoutePath path) with
        | none => GoMap.empty
        | some item => item)
      method (completedOperation op1 c st tag rs responses),
    R, ht, ?_, ?_, ?_, ?_, ?_, hR, hdef, hst⟩
  · rw [heq]; exact h3
  · rw [heq]
  · rw [heq]; simp only [AddOperation]; exact GoMap.insert_same _ _ _
  · exact GoMap.insert_same _ _ _
  · rw [completedOperation_operationID]; exact hid

theorem successResponse_description (c tag : String) (rs : Option Addr) :
    (successResponse c tag rs).Description = some "OK" := by
  cases rs <;> rfl

theorem successResponse_content_other (c tag : String) (e : Addr) (c1 : String)
    (h : c1 ≠ c) : (successResponse c tag (some e)).Content c1 = none := by
  simp [successResponse, NewContentWithSchemaRef, GoMap.insert, GoMap.empty, h]

/-- C13, as stated, fails. With the declared status code 400 the response stored under 400 is
the error response of the catalogue, added after the success response: its description is
`"Bad Request"` and its content references `httpGenericError`. With the declared status
code 0 the success response is stored under `"default"` and removed with it: nothing is
stored under 0. Both registrations succeed. -/
theorem success_response_overwritten_counterexample :
    (registerOpenAPIOperation emptyGenerator pairType (.struct "Req" idRequestFields) App.empty
        "GET" "/pairs/:id" "application/json" 400).failure = none
    ∧ (responseAt (registerOpenAPIOperation emptyGenerator pairType
          (.struct "Req" idRequestFields) App.empty "GET" "/pairs/:id" "application/json" 400)
        (.status 400)).map (fun response => response.Description)
        = some (some "Bad Request")
    ∧ (responseAt (registerOpenAPIOperation emptyGenerator pairType
          (.struct "Req" idRequestFields) App.empty "GET" "/pairs/:id" "application/json" 400)
        (.status 400)).bind (fun response => response.Content "application/json")
        = some (NewSchemaRef "#/components/schemas/httpGenericError" Schema.empty)
    ∧ (registerOpenAPIOperation emptyGenerator pairType (.struct "Req" idRequestFields) App.empty
        "GET" "/pairs/:id" "application/json" 0).failure = none
    ∧ (responseAt (registerOpenAPIOperation emptyGenerator pairType
          (.struct "Req" idRequestFields) App.empty "GET" "/pairs/:id" "application/json" 0)
        (.status 0)).isNone = true
    ∧ (responseAt (registerOpenAPIOperation emptyGenerator pairType
          (.struct "Req" idRequestFields) App.empty "GET" "/pairs/:id" "application/json" 0)
        .default).isNone = true := by
  decide

/-- C13, amended: for every declared status code between 1 and 999 that is none of the error
catalogue (400, 401, 404, 409, 500) and every response content type `C`, after a successful
`registerOpenAPIOperation` whose schema entry under the resolved name is not a nil
reference, the response stored on the returned operation under the status code is the
success response: description `"OK"`, with content for `C` and for no other content type,
whose schema reference is `#/components/schemas/` followed by the name `tagFromType` gives
the response type. -/
theorem success_response_stored (gen : Generator) (T Q : GoType) (s : App)
    (method path C : String) (st : Int) (tag : String)
    (h : (registerOpenAPIOperation gen T Q s method path C st).failure = none)
    (ht : tagFromType (zeroInterface T) = .ok tag)
    (hst : plainStatus st = true)
    (hnil : (registerOpenAPIOperation gen T Q s method path C st).app.Schemas tag
      ≠ some none) :
    ∃ response,
      responseAt (registerOpenAPIOperation gen T Q s method path C st) (.status st)
        = some response
      ∧ response.Description = some "OK"
      ∧ response.Content C = some (NewSchemaRef ("#/components/schemas/" ++ tag) Schema.empty)
      ∧ ∀ c1, c1 ≠ C → response.Content c1 = none := by
  obtain ⟨tag1, rs, op, item, R, ht1, hS, hop, _, _, _, hR, _, hval⟩ :=
    registerOpenAPIOperation_operation gen T Q s method path C st h
  rw [ht] at ht1
  cases ht1
  cases rs with
  | none => exact absurd hS hnil
  | some e =>
    refine ⟨successResponse C tag (some e), ?_, successResponse_description _ _ _,
      successResponse_content _ _ _, fun c1 hc1 => successResponse_content_other _ _ _ _ hc1⟩
    simp [responseAt, hop, hR, hval hst]

/-- The amended C13 at the response type `Pair` with status 201 and content type
`application/xml`. -/
theorem success_response_stored_witness :
    plainStatus 201 = true
    ∧ ∃ response,
      responseAt (registerOpenAPIOperation emptyGenerator pairType
          (.struct "Req" idRequestFields) App.empty "POST" "/pairs/:id" "application/xml" 201)
          (.status 201) = some response
      ∧ response.Description = some "OK"
      ∧ response.Content "application/xml"
          = some (NewSchemaRef ("#/components/schemas/" ++ "Pair") Schema.empty)
      ∧ ∀ c1, c1 ≠ "application/xml" → response.Content c1 = none :=
  ⟨by decide,
   success_response_stored emptyGenerator pairType (.struct "Req" idRequestFields) App.empty
     "POST" "/pairs/:id" "application/xml" 201 "Pair" (by decide) (by decide) (by decide)
     (by decide)⟩

/-- C14: after every successful `registerOpenAPIOperation`, whatever the method, path, content
type and status code, the operation it returns is the operation added to the document under
the document path and the method, and it has no response stored under `"default"`. -/
theorem default_response_removed (gen : Generator) (T Q : GoType) (s : App)
    (method path C : String) (st : Int)
    (h : (registerOpenAPIOperation gen T Q s method path C st).failure = none) :
    ∃ op item responses,
      (registerOpenAPIOperation gen T Q s method path C st).operation = some op
      ∧ (registerOpenAPIOperation gen T Q s method path C st).app.Paths (parseRoutePath path)
          = some item
      ∧ item method = some op
      ∧ op.Responses = some responses
      ∧ responses .default = none := by
  obtain ⟨_, _, op, item, R, _, _, hop, hpath, hitem, _, hR, hdef, _⟩ :=
    registerOpenAPIOperation_operation gen T Q s method path C st h
  exact ⟨op, item, R, hop, hpath, hitem, hR, hdef⟩

/-- C14 at a route with status code 0, whose success response itself lands on `"default"`. -/
theorem default_response_removed_witness :
    ∃ op item responses,
      (registerOpenAPIOperation emptyGenerator pairType (.struct "Req" idRequestFields)
          App.empty "GET" "/pairs/:id" "application/json" 0).operation = some op
      ∧ (registerOpenAPIOperation emptyGenerator pairType (.struct "Req" idRequestFields)
          App.empty "GET" "/pairs/:id" "application/json" 0).app.Paths
            (parseRoutePath "/pairs/:id") = some item
      ∧ item "GET" = some op
      ∧ op.Responses = some responses
      ∧ responses .default = none :=
  default_response_removed emptyGenerator pairType (.struct "Req" idRequestFields) App.empty
    "GET" "/pairs/:id" "application/json" 0 (by decide)

/-- C16: the operation returned by a successful `registerOpenAPIOperation` has
`OperationID = method ++ path`, the path being the template as given at registration. -/
theorem operation_id_method_path (gen : Generator) (T Q : GoType) (s : App)
    (method path C : String) (st : Int)
    (h : (registerOpenAPIOperation gen T Q s method path C st).failure = none) :
    ∃ op, (registerOpenAPIOperation gen T Q s method path C st).operation = some op
      ∧ op.OperationID = method ++ path := by
  obtain ⟨_, _, op, _, _, _, _, hop, _, _, hid, _, _, _⟩ :=
    registerOpenAPIOperation_operation gen T Q s method path C st h
  exact ⟨op, hop, hid⟩

/-- C16 at the route `POST /test/:id/:is_admin`: the operation id keeps the colon syntax, while
the document path is written with braces. -/
theorem operation_id_method_path_witness :
    "POST" ++ "/test/:id/:is_admin" = "POST/test/:id/:is_admin"
    ∧ parseRoutePath "/test/:id/:is_admin" = "/test/\x7bid\x7d/\x7bis_admin\x7d"
    ∧ ∃ op, (registerOpenAPIOperation emptyGenerator pairType (.struct "Req" idRequestFields)
          App.empty "POST" "/test/:id/:is_admin" "application/json" 201).operation = some op
      ∧ op.OperationID = "POST" ++ "/test/:id/:is_admin" :=
  ⟨by decide, by decide,
   operation_id_method_path emptyGenerator pairType (.struct "Req" idRequestFields) App.empty
     "POST" "/test/:id/:is_admin" "application/json" 201 (by decide)⟩

/-- C15, the code at the failing input `struct { Body bodyRequest; tagged req=body }`: `register`
takes no request content type and always builds the request body content for
`application/json` (openapi.go 212). The schema reference is `#/components/schemas/bodyRequest`
and `Components.Schemas` gets an entry `bodyRequest`, but there is no content entry keyed by
`multipart/form-data`. -/
theorem request_body_content_is_json :
    (register emptyGenerator App.empty Operation.empty bodyRequestFields).failure = none
    ∧ (register emptyGenerator App.empty Operation.empty bodyRequestFields).operation.RequestBody.bind
        (fun body => body.Content "application/json")
        = some (NewSchemaRef "#/components/schemas/bodyRequest" Schema.empty)
    ∧ ((register emptyGenerator App.empty Operation.empty bodyRequestFields).operation.RequestBody.map
        (fun body => body.Content "multipart/form-data")) = some none
    ∧ ((register emptyGenerator App.empty Operation.empty bodyRequestFields).app.Schemas
        "bodyRequest").isSome = true
    ∧ (registerOpenAPIOperation emptyGenerator pairType (.struct "Req" bodyRequestFields)
        App.empty "POST" "/upload" "application/json" 201).failure = none
    ∧ ((registerOpenAPIOperation emptyGenerator pairType (.struct "Req" bodyRequestFields)
        App.empty "POST" "/upload" "application/json" 201).operation.bind
          (fun operation => operation.RequestBody.map
            (fun body => body.Content "multipart/form-data"))) = some none := by
  decide

/-- C17, the code at failing inputs: `dive` lists `Func` and `UnsafePointer` among the kinds it
unwraps, but `t.Elem()` panics on a type of either kind, so with a budget left `dive` does not
return a name for a function type, for an unsafe pointer, or for a type that reaches one
within the budget; `tagFromType` of a function value panics likewise. A channel is
unwrapped. -/
theorem dive_func_panics :
    dive (.func "") 4 = .error (.panic "reflect: Elem of invalid type")
    ∧ dive (.unsafePointer "Pointer") 1 = .error (.panic "reflect: Elem of invalid type")
    ∧ dive (.slice "" (.func "Handler")) 4 = .error (.panic "reflect: Elem of invalid type")
    ∧ tagFromType (some (.func "")) = .error (.panic "reflect: Elem of invalid type")
    ∧ dive (.func "") 0 = .ok "default"
    ∧ dive (.chan "" intType) 4 = .ok "int" := by
  decide

theorem setParamSchema_generated (gen : Generator) (s : App) (op : Operation) (key : String)
    (p : Parameter) (r : Bool) (t : GoType) (ptr : Option Addr)
    (habs : s.Schemas key = none)
    (hgen : (NewSchemaRefForValue gen s (zeroInterface t)).2 = .ok ptr) :
    (setParamSchema gen s op key p r t).app.Schemas key = some ptr
    ∧ (setParamSchema gen s op key p r t).app.Objects
        = (NewSchemaRefForValue gen s (zeroInterface t)).1.Objects := by
  unfold setParamSchema
  rcases hg : NewSchemaRefForValue gen s (zeroInterface t) with ⟨s1, e | x⟩
  · rw [hg] at hgen; cases hgen
  · rw [hg] at hgen
    simp only [Except.ok.injEq] at hgen
    simp [habs, hgen, GoMap.insert]

theorem setParamSchema_present (gen : Generator) (s : App) (op : Operation) (key : String)
    (p : Parameter) (r : Bool) (t : GoType) (e : Option Addr) (h : s.Schemas key = some e) :
    (setParamSchema gen s op key p r t).app.Schemas key = some e
    ∧ (setParamSchema gen s op key p r t).app.Objects = s.Objects := by
  unfold setParamSchema
  simp [h]

theorem NewSchemaRefForValue_fresh (gen : Generator) (s : App) (v : Option GoType)
    (sch : Option SchemaRef) (hT : s.Types v = none) (hg : gen v = .ok sch) :
    match (NewSchemaRefForValue gen s v).2 with
    | .ok none => sch = none
    | .ok (some a) => (NewSchemaRefForValue gen s v).1.Objects[a]? = sch
    | .error _ => False := by
  unfold NewSchemaRefForValue
  cases sch with
  | none => simp [hT, hg]
  | some ref => simp [hT, hg]

theorem setParamSchema_succeeds (gen : Generator) (s : App) (op : Operation) (key : String)
    (p : Parameter) (r : Bool) (t : GoType)
    (h : (∃ e, s.Schemas key = some e) ∨ ∃ sch, gen (zeroInterface t) = .ok sch) :
    (setParamSchema gen s op key p r t).failure = none := by
  unfold setParamSchema
  simp only
  rcases hS : s.Schemas key with _ | v
  · rcases h with ⟨e, he⟩ | ⟨sch, hsch⟩
    · rw [hS] at he; cases he
    · unfold NewSchemaRefForValue
      rcases hT : s.Types (zeroInterface t) with _ | a
      · cases sch <;> simp [hsch]
      · rfl
  · rfl

theorem setParamSchema_parameter (gen : Generator) (s : App) (op : Operation) (key : String)
    (p : Parameter) (r : Bool) (t : GoType)
    (h : (setParamSchema gen s op key p r t).failure = none) :
    (setParamSchema gen s op key p r t).app.Parameters key
      = some (ParameterRef.mk "" (some { p with
          Schema := some (NewSchemaRef ("#/components/schemas/" ++ key) Schema.empty),
          Required := r })) := by
  unfold setParamSchema at h ⊢
  simp only at h ⊢
  rcases hS : s.Schemas key with _ | v
  · rw [hS] at h
    rcases hg : NewSchemaRefForValue gen s (zeroInterface t) with ⟨s1, e | sch⟩
    · simp [hg] at h
    · simp [GoMap.insert]
  · simp [GoMap.insert]

/-- C18: parameter components are last-writer-wins while their schemas are first-writer-wins.
For every key `k`, parameter `p` and field type: `setParamSchema` succeeds whenever a schema
is already stored under `k` or the generator yields one; when it succeeds,
`Components.Parameters[k]` is `p` (with the schema reference and `Required` the call sets on
it), whatever was stored under `k` before; and an entry that `Components.Schemas` held under
`k` is kept. So registering a field bound to path with key `k` of one type and then a field
bound to query with key `k` of another type, with a generator that does not fail, leaves
under `k` the query parameter of the later field, and as schema the earlier entry: the one
from before if there was one, else the reference the generator returns for the type of the
first field, which, the type being new to the generator, points to the schema generated for
that type. -/
theorem parameters_last_schemas_first (gen : Generator) (s : App) (op : Operation) (k : String)
    (p : Parameter) (r : Bool) (t : GoType)
    (name1 name2 : String) (tag1 tag2 : StructTag) (t1 t2 : GoType)
    (hkind1 : supportedKind t1.Kind = true) (hkind2 : supportedKind t2.Kind = true)
    (hleaf1 : t1.isStruct = false ∨ tag1.Get "lite" ≠ "")
    (hleaf2 : t2.isStruct = false ∨ tag2.Get "lite" ≠ "")
    (hgen : ∀ v e, gen v ≠ .error e)
    (hpath1 : parseTag (resolvedTag name1 tag1) "path" = some k)
    (hpath2 : parseTag (resolvedTag name2 tag2) "path" = none)
    (hquery2 : parseTag (resolvedTag name2 tag2) "query" = some k) :
    (((∃ e, s.Schemas k = some e) ∨ ∃ sch, gen (zeroInterface t) = .ok sch) →
        (setParamSchema gen s op k p r t).failure = none)
    ∧ ((setParamSchema gen s op k p r t).failure = none →
        (setParamSchema gen s op k p r t).app.Parameters k
          = some (ParameterRef.mk "" (some { p with
              Schema := some (NewSchemaRef ("#/components/schemas/" ++ k) Schema.empty),
              Required := r })))
    ∧ (∀ e, s.Schemas k = some e → (setParamSchema gen s op k p r t).app.Schemas k = some e)
    ∧ (register gen s op (.cons name1 tag1 t1 (.cons name2 tag2 t2 .nil))).failure = none
    ∧ (register gen s op (.cons name1 tag1 t1 (.cons name2 tag2 t2 .nil))).app.Parameters k
        = some (ParameterRef.mk "" (some
            { Name := k, In := "query", Required := decide (t2.Kind ≠ .Ptr),
              Schema := some (NewSchemaRef ("#/components/schemas/" ++ k) Schema.empty) }))
    ∧ (∀ e, s.Schemas k = some e →
        (register gen s op (.cons name1 tag1 t1 (.cons name2 tag2 t2 .nil))).app.Schemas k
          = some e)
    ∧ (∀ ptr, s.Schemas k = none →
        (NewSchemaRefForValue gen s (zeroInterface t1)).2 = .ok ptr →
        (register gen s op (.cons name1 tag1 t1 (.cons name2 tag2 t2 .nil))).app.Schemas k
          = some ptr)
    ∧ (∀ sch, s.Schemas k = none → s.Types (zeroInterface t1) = none →
        gen (zeroInterface t1) = .ok sch →
        (register gen s op (.cons name1 tag1 t1 (.cons name2 tag2 t2 .nil))).app.schemaAt k
          = some sch) := by
  have hu1 : unsupportedKind (.zero t1) = false := by simp [unsupportedKind_zero, hkind1]
  have hu2 : unsupportedKind (.zero t2) = false := by simp [unsupportedKind_zero, hkind2]
  have hf1 : registerField gen s op name1 (tag1.Get "lite") t1
      = setParamSchema gen s op k (NewPathParameter k) (decide (t1.Kind ≠ .Ptr)) t1 := by
    unfold resolvedTag at hpath1
    unfold registerField
    simp only [hpath1]
  have hf2 : ∀ s1 op1, registerField gen s1 op1 name2 (tag2.Get "lite") t2
      = setParamSchema gen s1 op1 k (NewQueryParameter k) (decide (t2.Kind ≠ .Ptr)) t2 := by
    intro s1 op1
    unfold resolvedTag at hpath2 hquery2
    unfold registerField
    simp only [hpath2, hquery2]
  have hreg : register gen s op (.cons name1 tag1 t1 (.cons name2 tag2 t2 .nil))
      = setParamSchema gen
          (setParamSchema gen s op k (NewPathParameter k) (decide (t1.Kind ≠ .Ptr)) t1).app
          (setParamSchema gen s op k (NewPathParameter k) (decide (t1.Kind ≠ .Ptr)) t1).operation
          k (NewQueryParameter k) (decide (t2.Kind ≠ .Ptr)) t2 := by
    rw [register_cons_leaf gen s op name1 tag1 t1 _ hu1 hleaf1, hf1]
    have h1 := (setParamSchema_effect gen s op k (NewPathParameter k)
      (decide (t1.Kind ≠ .Ptr)) t1 hgen).1
    rw [Outcome.eq_of_succeeded _ h1, Outcome.pure_andThen,
      register_single_leaf gen _ _ name2 tag2 t2 hu2 hleaf2, hf2]
  refine ⟨setParamSchema_succeeds gen s op k p r t, setParamSchema_parameter gen s op k p r t,
    fun e he => setParamSchema_kept gen s op k p r t k e he, ?_, ?_, ?_, ?_, ?_⟩
  · rw [hreg]
    exact (setParamSchema_effect gen _ _ k _ _ t2 hgen).1
  · rw [hreg]
    exact setParamSchema_parameter gen _ _ k _ _ t2 (setParamSchema_effect gen _ _ k _ _ t2 hgen).1
  · intro e he
    rw [hreg]
    exact setParamSchema_kept gen _ _ k _ _ t2 k e (setParamSchema_kept gen s op k _ _ t1 k e he)
  · intro ptr habs hptr
    rw [hreg]
    exact setParamSchema_kept gen _ _ k _ _ t2 k ptr
      (setParamSchema_generated gen s op k _ _ t1 ptr habs hptr).1
  · intro sch habs hT hsch
    rw [hreg]
    have hfresh := NewSchemaRefForValue_fresh gen s (zeroInterface t1) sch hT hsch
    rcases hr : (NewSchemaRefForValue gen s (zeroInterface t1)).2 with e | ptr
    · rw [hr] at hfresh; exact hfresh.elim
    · obtain ⟨h1, h2⟩ := setParamSchema_generated gen s op k (NewPathParameter k)
        (decide (t1.Kind ≠ .Ptr)) t1 ptr habs hr
      obtain ⟨h3, h4⟩ := setParamSchema_present gen _
        (setParamSchema gen s op k (NewPathParameter k) (decide (t1.Kind ≠ .Ptr)) t1).operation
        k (NewQueryParameter k) (decide (t2.Kind ≠ .Ptr)) t2 ptr h1
      rw [hr] at hfresh
      unfold App.schemaAt
      rw [h3]
      cases ptr with
      | none => simp only at hfresh ⊢; rw [hfresh]
      | some a => simp only at hfresh ⊢; rw [h4, h2, hfresh]

/-- C18 at the shape `struct { ID uint64; Name *string }` with `ID` tagged `path=k` and `Name`
tagged `query=k`: the parameter `k` is the optional query parameter of `Name`, the schema `k`
is the one generated for `uint64`. -/
theorem parameters_last_schemas_first_witness :
    (register kindGenerator App.empty Operation.empty sharedKeyRequestFields).app.Parameters "k"
        = some (ParameterRef.mk "" (some
            { Name := "k", In := "query", Required := false,
              Schema := some (NewSchemaRef "#/components/schemas/k" Schema.empty) }))
    ∧ (register kindGenerator App.empty Operation.empty sharedKeyRequestFields).app.schemaAt "k"
        = some (some (SchemaRef.mk "" { Type_ := "uint64", Format := "", Required := [] }))
    ∧ (register kindGenerator App.empty Operation.empty
        (.cons "ID" [("lite", "path=k")] (.basic "uint64" .Uint64)
          (.cons "Name" [("lite", "query=k")] (.ptr "" stringType) .nil))).failure = none :=
  ⟨by decide, by decide,
   (parameters_last_schemas_first kindGenerator App.empty Operation.empty "k"
      (NewPathParameter "k") true stringType "ID" "Name" [("lite", "path=k")]
      [("lite", "query=k")] (.basic "uint64" .Uint64) (.ptr "" stringType) (by decide)
      (by decide) (by decide) (by decide)
      (by intro v e h; unfold kindGenerator at h; split at h <;> cases h)
      (by decide) (by decide) (by decide)).2.2.2.1⟩

end Lite
